import Mathlib

/-!
Verification of the UCP reference merchant server's checkout engine.

This file gives a shallow embedding in Lean of the checkout service
(`services/checkout_service.py`), the fulfillment evaluator
(`services/fulfillment_service.py`) and the persistence helpers (`db.py`),
and proves the stated properties about them.  Money amounts are integers
(minor units), and Python truthiness on optional strings / lists is
modelled explicitly.
-/

namespace UCP

/-! ## Python truthiness helpers -/

/-- Truthiness of an optional Python string: `None` and `""` are falsy. -/
def pyStrTruthy (o : Option String) : Bool :=
  match o with
  | some s => !s.isEmpty
  | none => false

/-- Python `a or b` for an optional string `a` with fallback `b`. -/
def pyOrStr (o : Option String) (b : String) : String :=
  match o with
  | some s => if s.isEmpty then b else s
  | none => b

/-- Python `a or b` for an optional list `a` with fallback `b`:
`None` and `[]` are falsy. -/
def pyOrList (o : Option (List String)) (b : List String) : List String :=
  match o with
  | some l => if l.isEmpty then b else l
  | none => b

/-- Truthiness of an optional Python int: `None` and `0` are falsy. -/
def pyIntTruthy (o : Option Int) : Bool :=
  match o with
  | some n => n != 0
  | none => false

/-- Deterministic stand-in for `uuid.uuid4()`: identifier generation is
threaded through the commands as a counter. -/
def freshId (n : Nat) : String := "uid-" ++ toString n

/-! ## IEEE-754 double model

`_recalculate_totals` computes percentage discounts with
`int(grand_total * (discount_obj.value / 100))`, which is Python float
(IEEE-754 binary64) arithmetic.  We model each float operation exactly:
a real (rational) result is rounded to 53 significant bits with
round-to-nearest, ties-to-even.  Overflow and subnormals are outside the
range of any value occurring here and are not modelled. -/

/-- Fueled base-2 logarithm on naturals (structural recursion so that
kernel reduction works on concrete inputs). -/
def natLog2Fuel : Nat → Nat → Nat
  | 0, _ => 0
  | fuel + 1, m => if m ≤ 1 then 0 else 1 + natLog2Fuel fuel (m / 2)

/-- Floor of the base-2 logarithm of a positive natural. -/
def natLog2 (m : Nat) : Nat := natLog2Fuel m m

/-- Does the positive fraction `n / b` reach `2 ^ e`? -/
def fracGePow2 (n b e : ℤ) : Bool :=
  if 0 ≤ e then decide (b * ((2 : ℤ) ^ e.toNat) ≤ n)
  else decide (b ≤ n * ((2 : ℤ) ^ (-e).toNat))

/-- Round the positive fraction `num / den` to the nearest integer, ties
to even. -/
def roundNearestEvenFrac (num den : ℤ) : ℤ :=
  let fl := num / den
  let r := num % den
  if den < 2 * r then fl + 1
  else if 2 * r < den then fl
  else if fl % 2 = 0 then fl else fl + 1

/-- Round the fraction `a / b` (with `b > 0`) to the nearest IEEE-754
binary64 value, returned as an exact dyadic pair `(m, e)` whose value is
`m * 2 ^ e` with 53-bit mantissa.  Overflow and subnormals do not occur in
this program's range and are not modelled. -/
def roundFloat (a b : ℤ) : ℤ × ℤ :=
  if a = 0 then (0, 0)
  else
    let n := |a|
    let e0 : ℤ := (natLog2 n.toNat : ℤ) - (natLog2 b.toNat : ℤ)
    let e := if fracGePow2 n b e0 then e0 else e0 - 1
    let shift := 52 - e
    let num := if 0 ≤ shift then n * ((2 : ℤ) ^ shift.toNat) else n
    let den := if 0 ≤ shift then b else b * ((2 : ℤ) ^ (-shift).toNat)
    let m0 := roundNearestEvenFrac num den
    (if a < 0 then -m0 else m0, e - 52)

/-- Round a dyadic value `m * 2 ^ e` to the nearest binary64 value. -/
def roundFloatDyadic (m e : ℤ) : ℤ × ℤ :=
  if 0 ≤ e then roundFloat (m * ((2 : ℤ) ^ e.toNat)) 1
  else roundFloat m ((2 : ℤ) ^ (-e).toNat)

/-- Truncate a dyadic value toward zero (Python `int()` on a float;
`Int` division truncates toward zero). -/
def truncDyadic (m e : ℤ) : ℤ :=
  if 0 ≤ e then m * ((2 : ℤ) ^ e.toNat) else m / ((2 : ℤ) ^ (-e).toNat)

/-- The exact value of the Python expression
`int(grand_total * (value / 100))` under IEEE-754 binary64 semantics:
`value / 100` is one correctly rounded float division, `grand_total` is
converted to float, the product is one correctly rounded float
multiplication, and `int` truncates toward zero. -/
def pyFloatPercent (g v : ℤ) : ℤ :=
  let dv := roundFloat v 100
  let dg := roundFloat g 1
  let prod := roundFloatDyadic (dg.1 * dv.1) (dg.2 + dv.2)
  truncDyadic prod.1 prod.2

/-! ## Data model (response/session side) -/

/-- `TotalResponse` (aliased `Total` in the service): a typed amount. -/
structure Total where
  type : String
  amount : Int
deriving DecidableEq, Repr

/-- `ItemResponse`: product snapshot inside a line item. -/
structure ItemResponse where
  id : String
  title : String
  price : Int
deriving DecidableEq, Repr

/-- `LineItemResponse`. -/
structure LineItemResponse where
  id : String
  item : ItemResponse
  quantity : Int
  totals : List Total
deriving DecidableEq, Repr

/-- `ShippingDestinationResponse` (the payload of a fulfillment destination). -/
structure ShippingDestinationResponse where
  id : String
  address_country : Option String := none
  postal_code : Option String := none
  address_region : Option String := none
  address_locality : Option String := none
  street_address : Option String := none
deriving DecidableEq, Repr

/-- `FulfillmentOptionResponse`. -/
structure FulfillmentOptionResponse where
  id : String
  title : String
  totals : List Total
deriving DecidableEq, Repr

/-- `FulfillmentGroupResponse`.  A `None` options/line-items list is
behaviourally identical to an empty one (only truthiness is consulted). -/
structure FulfillmentGroupResponse where
  id : String
  line_item_ids : List String := []
  options : List FulfillmentOptionResponse := []
  selected_option_id : Option String := none
deriving DecidableEq, Repr

/-- `FulfillmentMethodResponse`. -/
structure FulfillmentMethodResponse where
  id : String
  type : String
  line_item_ids : List String := []
  destinations : List ShippingDestinationResponse := []
  selected_destination_id : Option String := none
  groups : List FulfillmentGroupResponse := []
deriving DecidableEq, Repr

/-- `Allocation` of an applied discount. -/
structure Allocation where
  path : String
  amount : Int
deriving DecidableEq, Repr

/-- `AppliedDiscount`. -/
structure AppliedDiscount where
  code : String
  title : String
  amount : Int
  allocations : List Allocation
deriving DecidableEq, Repr

/-- `DiscountsObject`. -/
structure DiscountsObject where
  codes : List String := []
  applied : Option (List AppliedDiscount) := none
deriving DecidableEq, Repr

/-- `CheckoutStatus` (`enums.py`). -/
inductive CheckoutStatus where
  | inProgress
  | requiresEscalation
  | readyForComplete
  | completeInProgress
  | completed
  | canceled
deriving DecidableEq, Repr

/-- Buyer contact data (only the email is consulted by the service). -/
structure Buyer where
  email : Option String := none
deriving DecidableEq, Repr

/-- Payment credential: a card number or an opaque token. -/
inductive Credential where
  | card (number : String)
  | token (tok : String)
deriving DecidableEq, Repr

/-- A payment instrument as carried on requests and sessions. -/
structure PaymentInstrument where
  id : String
  handler_id : String
  credential : Option Credential := none
deriving DecidableEq, Repr

/-- `PaymentResponse` on the session (handlers list is always empty here). -/
structure PaymentResponse where
  selected_instrument_id : Option String := none
  instruments : List PaymentInstrument := []
deriving DecidableEq, Repr

/-- `OrderConfirmation` attached to a completed session. -/
structure OrderConfirmation where
  id : String
  permalink_url : String
deriving DecidableEq, Repr

/-- `UnifiedCheckout`: the checkout session aggregate.  `fulfillment` is
`some ms` when a `Fulfillment(root=FulfillmentResponse(methods=ms))`
object is present (`None` methods behave as the empty list). -/
structure Checkout where
  id : String
  status : CheckoutStatus
  currency : String
  line_items : List LineItemResponse
  totals : List Total
  fulfillment : Option (List FulfillmentMethodResponse) := none
  discounts : Option DiscountsObject := none
  buyer : Option Buyer := none
  payment : PaymentResponse := {}
  order : Option OrderConfirmation := none
deriving DecidableEq, Repr

/-! ## Catalog store (`db.py`, products database) -/

/-- `Product` row. -/
structure Product where
  id : String
  title : String
  price : Int
deriving DecidableEq, Repr

/-- `Promotion` row (`eligible_item_ids` is a nullable JSON list; `None`
behaves as the empty list under truthiness). -/
structure Promotion where
  id : String
  type : String
  min_subtotal : Option Int := none
  eligible_item_ids : List String := []
deriving DecidableEq, Repr

/-- `ShippingRate` row. -/
structure ShippingRate where
  id : String
  country_code : String
  service_level : String
  price : Int
  title : String
deriving DecidableEq, Repr

/-- `Discount` row (`code` is the primary key). -/
structure Discount where
  code : String
  type : String
  value : Int
  description : String
deriving DecidableEq, Repr

/-- The read-only catalog store. -/
structure Catalog where
  products : List Product
  promotions : List Promotion
  shipping_rates : List ShippingRate
  discounts : List Discount
deriving DecidableEq, Repr

/-- `db.get_product`. -/
def get_product (cat : Catalog) (product_id : String) : Option Product :=
  cat.products.find? (fun p => p.id == product_id)

/-- `db.get_shipping_rates`: rates for the country or `"default"`. -/
def get_shipping_rates (cat : Catalog) (country_code : String) :
    List ShippingRate :=
  cat.shipping_rates.filter
    (fun r => r.country_code == country_code || r.country_code == "default")

/-- `db.get_active_promotions`. -/
def get_active_promotions (cat : Catalog) : List Promotion :=
  cat.promotions

/-- Lookup in the map built by `get_discounts_by_codes` (codes are the
primary key of the discounts table, so the first match is the row). -/
def get_discount (cat : Catalog) (code : String) : Option Discount :=
  cat.discounts.find? (fun d => d.code == code)

/-! ## Fulfillment evaluator (`fulfillment_service.py`) -/

/-- `PostalAddress` passed to the evaluator (only the country is read). -/
structure PostalAddress where
  street_address : Option String := none
  address_locality : Option String := none
  address_region : Option String := none
  postal_code : Option String := none
  address_country : Option String := none
deriving DecidableEq, Repr

/-- One iteration of the free-shipping loop: does this promotion make the
order free-shipping eligible? -/
def isFreeShippingPromo (promo : Promotion) (subtotal : Int)
    (line_item_ids : List String) : Bool :=
  promo.type == "free_shipping" &&
    ((pyIntTruthy promo.min_subtotal &&
        decide ((promo.min_subtotal.getD 0) ≤ subtotal)) ||
      (!promo.eligible_item_ids.isEmpty &&
        line_item_ids.any (fun i => promo.eligible_item_ids.contains i)))

/-- The free-shipping eligibility computed by `calculate_options`. -/
def isFreeShipping (promotions : List Promotion) (subtotal : Int)
    (line_item_ids : List String) : Bool :=
  promotions.any (fun p => isFreeShippingPromo p subtotal line_item_ids)

/-- The `rates_by_level` dictionary: insertion-ordered, keyed by service
level, replacing a `"default"` entry in place when a country-specific rate
for the same level arrives. -/
def bucketRates (rates : List ShippingRate) :
    List (String × ShippingRate) :=
  rates.foldl
    (fun acc rate =>
      if acc.any (fun p => p.1 == rate.service_level) then
        acc.map (fun p =>
          if p.1 == rate.service_level && p.2.country_code == "default" &&
              rate.country_code != "default"
          then (p.1, rate) else p)
      else acc ++ [(rate.service_level, rate)])
    []

/-- Stable insertion into a price-ascending list: an element goes before
the first strictly or equally priced later element, so earlier input
elements stay ahead of equal-priced ones (Python's `sorted` is stable). -/
def insertRate (r : ShippingRate) : List ShippingRate → List ShippingRate
  | [] => [r]
  | x :: xs => if r.price ≤ x.price then r :: x :: xs else x :: insertRate r xs

/-- Stable sort by ascending price (`sorted(..., key=lambda r: r.price)`),
written as a structurally recursive insertion sort so that it evaluates
by kernel reduction. -/
def sortRatesByPrice : List ShippingRate → List ShippingRate
  | [] => []
  | x :: xs => insertRate x (sortRatesByPrice xs)

/-- Materialise one rate into an option, applying free standard shipping. -/
def materialiseRate (free : Bool) (rate : ShippingRate) :
    FulfillmentOptionResponse :=
  if free && rate.service_level == "standard" then
    { id := rate.id, title := rate.title ++ " (Free)",
      totals := [⟨"subtotal", 0⟩, ⟨"total", 0⟩] }
  else
    { id := rate.id, title := rate.title,
      totals := [⟨"subtotal", rate.price⟩, ⟨"total", rate.price⟩] }

/-- `FulfillmentService.calculate_options`. -/
def calculate_options (cat : Catalog) (address : PostalAddress)
    (promotions : List Promotion) (subtotal : Int)
    (line_item_ids : List String) : List FulfillmentOptionResponse :=
  match address.address_country with
  | none => []
  | some country =>
    if country.isEmpty then []
    else
      let free := isFreeShipping promotions subtotal line_item_ids
      let db_rates := get_shipping_rates cat country
      let sorted_rates := sortRatesByPrice ((bucketRates db_rates).map Prod.snd)
      sorted_rates.map (materialiseRate free)

/-! ## Errors (`exceptions.py`) -/

/-- The data of a `UcpError`: code, HTTP status, message. -/
structure UcpErr where
  code : String
  status : Nat
  message : String
deriving DecidableEq, Repr

/-- `InvalidRequestError`. -/
def InvalidRequestError (message : String) : UcpErr :=
  ⟨"INVALID_REQUEST", 400, message⟩

/-- `ResourceNotFoundError`. -/
def ResourceNotFoundError (message : String) : UcpErr :=
  ⟨"RESOURCE_NOT_FOUND", 404, message⟩

/-- `IdempotencyConflictError`. -/
def IdempotencyConflictError (message : String) : UcpErr :=
  ⟨"IDEMPOTENCY_CONFLICT", 409, message⟩

/-- `CheckoutNotModifiableError`. -/
def CheckoutNotModifiableError (message : String) : UcpErr :=
  ⟨"CHECKOUT_NOT_MODIFIABLE", 409, message⟩

/-- `OutOfStockError` with its (explicit) status code. -/
def OutOfStockError (message : String) (status_code : Nat) : UcpErr :=
  ⟨"OUT_OF_STOCK", status_code, message⟩

/-- `PaymentFailedError` with explicit code and status. -/
def PaymentFailedError (message : String) (code : String) (status_code : Nat) :
    UcpErr :=
  ⟨code, status_code, message⟩

/-! ## Totals recomputation (`CheckoutService._recalculate_totals`) -/

/-- First pass: reload authoritative price and title from the catalog for
each line item, set its totals, and accumulate the subtotal grand total.
The first line item whose product is missing aborts the recomputation. -/
def recalcLineItems (cat : Catalog) :
    List LineItemResponse → Except UcpErr (List LineItemResponse × Int)
  | [] => .ok ([], 0)
  | line :: rest =>
    match get_product cat line.item.id with
    | none =>
      .error (InvalidRequestError ("Product " ++ line.item.id ++ " not found"))
    | some product =>
      let base := product.price * line.quantity
      let line' : LineItemResponse :=
        { line with
          item := { line.item with
                    price := product.price, title := product.title },
          totals := [⟨"subtotal", base⟩, ⟨"total", base⟩] }
      match recalcLineItems cat rest with
      | .error e => .error e
      | .ok (ls, g) => .ok (line' :: ls, base + g)

/-- The options calculated for one method: only for a shipping method with
a truthy selected destination that resolves among its destinations. -/
def methodCalculatedOptions (cat : Catalog) (promotions : List Promotion)
    (line_items : List LineItemResponse) (grand_total : Int)
    (method : FulfillmentMethodResponse) : List FulfillmentOptionResponse :=
  if method.type == "shipping" && pyStrTruthy method.selected_destination_id
  then
    let sel := method.selected_destination_id.getD ""
    match method.destinations.find? (fun d => d.id == sel) with
    | none => []
    | some dest =>
      let address : PostalAddress :=
        { street_address := dest.street_address,
          address_locality := dest.address_locality,
          address_region := dest.address_region,
          postal_code := dest.postal_code,
          address_country := dest.address_country }
      let all_li_ids := line_items.map (fun li => li.id)
      let target_li_ids :=
        if method.line_item_ids.isEmpty then all_li_ids
        else method.line_item_ids
      let target_product_ids := target_li_ids.filterMap
        (fun u => (line_items.find? (fun item => item.id == u)).map
          (fun item => item.item.id))
      calculate_options cat address promotions grand_total target_product_ids
  else []

/-- One iteration of the group loop of the fulfillment pass: refresh the
group's options when fresh ones were calculated, and emit a `fulfillment`
totals entry for a resolvable selected option; the `Int` is the amount
added to the grand total. -/
def groupStep (calculated_options : List FulfillmentOptionResponse)
    (group : FulfillmentGroupResponse) :
    FulfillmentGroupResponse × List Total × Int :=
  let group' :=
    if !calculated_options.isEmpty then
      { group with options := calculated_options }
    else group
  if pyStrTruthy group'.selected_option_id && !group'.options.isEmpty then
    match group'.options.find?
        (fun o => o.id == group'.selected_option_id.getD "") with
    | some opt =>
      let opt_total :=
        ((opt.totals.find? (fun t => t.type == "total")).map
          (fun t => t.amount)).getD 0
      (group', [⟨"fulfillment", opt_total⟩], opt_total)
    | none => (group', [], 0)
  else (group', [], 0)

/-- The group loop of the fulfillment pass. -/
def processGroups (calculated_options : List FulfillmentOptionResponse) :
    List FulfillmentGroupResponse →
      List FulfillmentGroupResponse × List Total × Int
  | [] => ([], [], 0)
  | group :: rest =>
    let st := groupStep calculated_options group
    let r := processGroups calculated_options rest
    (st.1 :: r.1, st.2.1 ++ r.2.1, st.2.2 + r.2.2)

/-- One iteration of the per-method fulfillment pass: synthesise a group
for a selected destination on a group-less method, or refresh the existing
groups and collect the selected options' totals. -/
def methodStep (cat : Catalog) (promotions : List Promotion)
    (line_items : List LineItemResponse)
    (method : FulfillmentMethodResponse) (g : Int) (n : Nat) :
    FulfillmentMethodResponse × List Total × Int × Nat :=
  let calculated_options :=
    methodCalculatedOptions cat promotions line_items g method
  if pyStrTruthy method.selected_destination_id && method.groups.isEmpty
  then
    ({ method with
       groups := [{ id := "group_" ++ freshId n,
                    line_item_ids := method.line_item_ids,
                    options := calculated_options,
                    selected_option_id := none }] },
     ([] : List Total), g, n + 1)
  else if !method.groups.isEmpty then
    let r := processGroups calculated_options method.groups
    ({ method with groups := r.1 }, r.2.1, g + r.2.2, n)
  else (method, [], g, n)

/-- The per-method fulfillment pass in stored order, threading the grand
total (consumed by each method's option calculation) and the id counter;
returns the updated methods, the emitted `fulfillment` totals entries, the
new grand total and the new counter. -/
def processMethods (cat : Catalog) (promotions : List Promotion)
    (line_items : List LineItemResponse) :
    List FulfillmentMethodResponse → Int → Nat →
      List FulfillmentMethodResponse × List Total × Int × Nat
  | [], g, n => ([], [], g, n)
  | method :: rest, g, n =>
    let st := methodStep cat promotions line_items method g n
    let r := processMethods cat promotions line_items rest st.2.2.1 st.2.2.2
    (st.1 :: r.1, st.2.1 ++ r.2.1, r.2.2.1, r.2.2.2)

/-- The discount amount of one discount row at the current grand total:
percentage discounts go through Python float arithmetic, fixed amounts
are taken verbatim, other types contribute zero. -/
def discountAmountOf (g : Int) (discount_obj : Discount) : Int :=
  if discount_obj.type == "percentage" then
    pyFloatPercent g discount_obj.value
  else if discount_obj.type == "fixed_amount" then discount_obj.value
  else 0

/-- The discount pass: apply codes in stored order; unknown codes and
non-positive amounts are skipped silently.  Returns the appended
`applied` entries, the `discount` totals entries, and the new grand
total. -/
def applyDiscounts (cat : Catalog) :
    List String → Int → List AppliedDiscount × List Total × Int
  | [], g => ([], [], g)
  | code :: rest, g =>
    match get_discount cat code with
    | none => applyDiscounts cat rest g
    | some discount_obj =>
      let discount_amount : Int := discountAmountOf g discount_obj
      if 0 < discount_amount then
        let applied : AppliedDiscount :=
          { code := code, title := discount_obj.description,
            amount := discount_amount,
            allocations :=
              [⟨"$.totals[?(@.type==\x27subtotal\x27)]", discount_amount⟩] }
        let (apps, es, g2) := applyDiscounts cat rest (g - discount_amount)
        (applied :: apps, ⟨"discount", discount_amount⟩ :: es, g2)
      else applyDiscounts cat rest g

/-- The fulfillment pass over a session's optional methods: a falsy
methods list leaves the fulfillment tree and the grand total untouched. -/
def fulfillmentPhase (cat : Catalog) (lines : List LineItemResponse)
    (ful : Option (List FulfillmentMethodResponse)) (g0 : Int) (n : Nat) :
    Option (List FulfillmentMethodResponse) × List Total × Int × Nat :=
  match ful with
  | some ms =>
    if ms.isEmpty then (ful, [], g0, n)
    else
      let r := processMethods cat (get_active_promotions cat) lines ms g0 n
      (some r.1, r.2.1, r.2.2.1, r.2.2.2)
  | none => (none, [], g0, n)

/-- The discount pass over a session's (possibly falsy) code list. -/
def discountPhase (cat : Catalog) (codes : List String) (g1 : Int) :
    List AppliedDiscount × List Total × Int :=
  if codes.isEmpty then ([], [], g1)
  else applyDiscounts cat codes g1

/-- `CheckoutService._recalculate_totals` as a pure function of the
catalog, the session and the id counter. -/
def _recalculate_totals (cat : Catalog) (checkout : Checkout) (n : Nat) :
    Except UcpErr (Checkout × Nat) :=
  match recalcLineItems cat checkout.line_items with
  | .error e => .error e
  | .ok (lines, g0) =>
    let fstep := fulfillmentPhase cat lines checkout.fulfillment g0 n
    let d0 := checkout.discounts.getD {}
    let dstep := discountPhase cat d0.codes fstep.2.2.1
    let applied' : Option (List AppliedDiscount) :=
      if dstep.1.isEmpty then d0.applied
      else some (d0.applied.getD [] ++ dstep.1)
    .ok ({ checkout with
           line_items := lines,
           totals := ⟨"subtotal", g0⟩ ::
             (fstep.2.1 ++ dstep.2.1 ++ [⟨"total", dstep.2.2⟩]),
           fulfillment := fstep.1,
           discounts := some { d0 with applied := applied' } }, fstep.2.2.2)

/-! ## Inventory, modifiability, payment -/

/-- `db.get_inventory`. -/
def get_inventory (inventory : List (String × Int)) (product_id : String) :
    Option Int :=
  (inventory.find? (fun p => p.1 == product_id)).map (fun p => p.2)

/-- `db.reserve_stock`: the conditional decrement
`UPDATE inventory SET quantity = quantity - q WHERE product_id = p AND
quantity >= q`; the Boolean is `rowcount > 0`. -/
def reserve_stock (inventory : List (String × Int)) (product_id : String)
    (quantity : Int) : Bool × List (String × Int) :=
  (inventory.any (fun p => p.1 == product_id && decide (quantity ≤ p.2)),
   inventory.map (fun p =>
     if p.1 == product_id && decide (quantity ≤ p.2) then (p.1, p.2 - quantity)
     else p))

/-- `CheckoutService._validate_inventory`: the first line item with missing
or insufficient stock raises `OUT_OF_STOCK` (status 400). -/
def _validate_inventory (inventory : List (String × Int)) :
    List LineItemResponse → Except UcpErr Unit
  | [] => .ok ()
  | line :: rest =>
    match get_inventory inventory line.item.id with
    | none =>
      .error (OutOfStockError
        ("Insufficient stock for item " ++ line.item.id) 400)
    | some qty_avail =>
      if qty_avail < line.quantity then
        .error (OutOfStockError
          ("Insufficient stock for item " ++ line.item.id) 400)
      else _validate_inventory inventory rest

/-- `CheckoutService._ensure_modifiable`. -/
def _ensure_modifiable (checkout : Checkout) (action : String) :
    Except UcpErr Unit :=
  if checkout.status = .completed ∨ checkout.status = .canceled then
    .error (CheckoutNotModifiableError ("Cannot " ++ action ++ " checkout"))
  else .ok ()

/-- The payment body of a `complete` request. -/
structure PaymentCreateRequest where
  instruments : List PaymentInstrument := []
  selected_instrument_id : Option String := none
deriving DecidableEq, Repr

/-- `CheckoutService._process_payment`. -/
def _process_payment (payment : PaymentCreateRequest) : Except UcpErr Unit :=
  if payment.instruments.isEmpty then
    .error (InvalidRequestError "Missing payment instruments")
  else if !pyStrTruthy payment.selected_instrument_id then
    .error (InvalidRequestError "Missing selected_instrument_id")
  else
    let selected_id := payment.selected_instrument_id.getD ""
    match payment.instruments.find? (fun i => i.id == selected_id) with
    | none =>
      .error (InvalidRequestError
        ("Selected instrument " ++ selected_id ++ " not found"))
    | some instrument =>
      match instrument.credential with
      | none => .error (InvalidRequestError "Missing credentials in instrument")
      | some (.card _) => .ok ()
      | some (.token tok) =>
        if instrument.handler_id == "mock_payment_handler" then
          if tok == "success_token" then .ok ()
          else if tok == "fail_token" then
            .error (PaymentFailedError
              "Payment Failed: Insufficient Funds (Mock)"
              "INSUFFICIENT_FUNDS" 402)
          else if tok == "fraud_token" then
            .error (PaymentFailedError
              "Payment Failed: Fraud Detected (Mock)" "FRAUD_DETECTED" 403)
          else
            .error (PaymentFailedError ("Unknown mock token: " ++ tok)
              "UNKNOWN_TOKEN" 402)
        else if instrument.handler_id == "google_pay" then .ok ()
        else if instrument.handler_id == "shop_pay" then .ok ()
        else
          .error (InvalidRequestError
            ("Unsupported payment handler: " ++ instrument.handler_id))

/-! ## Requests -/

/-- The item of a line item create/update request; the client-supplied
price is carried but discarded by the server. -/
structure ItemCreateRequest where
  id : String
  title : String
  price : Option Int := none
deriving DecidableEq, Repr

/-- A line item on a create request. -/
structure LineItemCreateRequest where
  item : ItemCreateRequest
  quantity : Int
deriving DecidableEq, Repr

/-- A line item on an update request (may reference an existing id). -/
structure LineItemUpdateRequest where
  id : Option String := none
  item : ItemCreateRequest
  quantity : Int
deriving DecidableEq, Repr

/-- `ShippingDestinationRequest` (the unwrapped inner destination). -/
structure ShippingDestinationRequest where
  id : Option String := none
  address_country : Option String := none
  postal_code : Option String := none
  address_region : Option String := none
  address_locality : Option String := none
  street_address : Option String := none
deriving DecidableEq, Repr

/-- A fulfillment group on a create/update request. -/
structure FulfillmentGroupRequest where
  id : Option String := none
  line_item_ids : Option (List String) := none
  selected_option_id : Option String := none
deriving DecidableEq, Repr

/-- A fulfillment method on a create/update request. -/
structure FulfillmentMethodRequest where
  id : Option String := none
  type : String := "shipping"
  line_item_ids : Option (List String) := none
  destinations : List ShippingDestinationRequest := []
  selected_destination_id : Option String := none
  groups : List FulfillmentGroupRequest := []
deriving DecidableEq, Repr

/-- The payment block of a create/update request. -/
structure PaymentRequestData where
  instruments : List PaymentInstrument := []
  selected_instrument_id : Option String := none
deriving DecidableEq, Repr

/-- `UnifiedCheckoutCreateRequest`; `fulfillment = some ms` models a
present fulfillment object whose methods list is `ms`. -/
structure UnifiedCheckoutCreateRequest where
  id : Option String := none
  currency : String
  line_items : List LineItemCreateRequest
  payment : PaymentRequestData := {}
  fulfillment : Option (List FulfillmentMethodRequest) := none
  buyer : Option Buyer := none
  discounts : Option DiscountsObject := none
deriving DecidableEq, Repr

/-- `UnifiedCheckoutUpdateRequest` (partial update). -/
structure UnifiedCheckoutUpdateRequest where
  line_items : List LineItemUpdateRequest := []
  currency : Option String := none
  payment : Option PaymentRequestData := none
  buyer : Option Buyer := none
  fulfillment : Option (List FulfillmentMethodRequest) := none
  discounts : Option DiscountsObject := none
deriving DecidableEq, Repr

/-- The idempotency fingerprint `SHA-256(canonical-JSON(body))`, modelled
by the canonical body itself: `create`/`update` hash their request,
`complete` hashes the composed `{payment, risk_signals, ap2}` triple and
`cancel` hashes the empty payload `{}`. -/
inductive ReqHash where
  | createH (req : UnifiedCheckoutCreateRequest)
  | updateH (req : UnifiedCheckoutUpdateRequest)
  | completeH (payment : PaymentCreateRequest) (risk_signals : String)
      (ap2 : Option String)
  | cancelH
deriving DecidableEq, Repr

/-! ## Transaction store (`db.py`, transactions database) -/

/-- `IdempotencyRecord` row (the cached response body is the serialized
checkout). -/
structure IdempotencyRecord where
  key : String
  request_hash : ReqHash
  response_status : Nat
  response_body : Checkout
deriving DecidableEq, Repr

/-- `CustomerAddress` row. -/
structure CustomerAddress where
  id : String
  street_address : Option String := none
  city : Option String := none
  state : Option String := none
  postal_code : Option String := none
  country : Option String := none
deriving DecidableEq, Repr

/-- `Customer` row together with its address rows. -/
structure Customer where
  id : String
  email : String
  addresses : List CustomerAddress := []
deriving DecidableEq, Repr

/-- An order line item as materialised on completion. -/
structure OrderLineItemRec where
  id : String
  item : ItemResponse
  quantity_total : Int
  quantity_fulfilled : Int
  totals : List Total
  status : String
deriving DecidableEq, Repr

/-- The persisted order body (fulfillment expectations elided: no claim
consults them). -/
structure OrderRec where
  id : String
  checkout_id : String
  permalink_url : String
  line_items : List OrderLineItemRec
  totals : List Total
deriving DecidableEq, Repr

/-- The transactions database. -/
structure TransState where
  inventory : List (String × Int) := []
  checkouts : List (String × Checkout) := []
  orders : List (String × OrderRec) := []
  idempotency : List (String × IdempotencyRecord) := []
  customers : List Customer := []
deriving DecidableEq, Repr

/-- Lookup by primary key. -/
def lookupAssoc {α : Type} (l : List (String × α)) (k : String) : Option α :=
  (l.find? (fun p => p.1 == k)).map (fun p => p.2)

/-- Insert-or-replace by primary key (as `save_checkout`/`save_order` do). -/
def setAssoc {α : Type} (l : List (String × α)) (k : String) (v : α) :
    List (String × α) :=
  if l.any (fun p => p.1 == k) then
    l.map (fun p => if p.1 == k then (k, v) else p)
  else l ++ [(k, v)]

/-- `db.get_customer_addresses`. -/
def get_customer_addresses (s : TransState) (email : String) :
    List CustomerAddress :=
  match s.customers.find? (fun c => c.email == email) with
  | some customer => customer.addresses
  | none => []

/-- `db.save_customer_address`: create the customer if missing, reuse an
existing address id when all fields match, else insert (with the supplied
id or a fresh one) and return the id. -/
def save_customer_address (s : TransState) (email : String)
    (address : ShippingDestinationRequest) (n : Nat) :
    String × TransState × Nat :=
  let (customer, s, n) :=
    match s.customers.find? (fun c => c.email == email) with
    | some c => (c, s, n)
    | none =>
      let c : Customer := { id := freshId n, email := email, addresses := [] }
      (c, { s with customers := s.customers ++ [c] }, n + 1)
  let matching := customer.addresses.find? (fun a =>
    a.street_address == address.street_address &&
    a.city == address.address_locality &&
    a.state == address.address_region &&
    a.postal_code == address.postal_code &&
    a.country == address.address_country)
  match matching with
  | some existing_addr => (existing_addr.id, s, n)
  | none =>
    let (new_id, n) :=
      if pyStrTruthy address.id then (address.id.getD "", n)
      else (freshId n, n + 1)
    let new_addr : CustomerAddress :=
      { id := new_id,
        street_address := address.street_address,
        city := address.address_locality,
        state := address.address_region,
        postal_code := address.postal_code,
        country := address.address_country }
    (new_id,
     { s with customers := s.customers.map (fun c =>
         if c.id == customer.id then
           { c with addresses := c.addresses ++ [new_addr] }
         else c) }, n)

/-! ## Commands

Each command is a big-step function on the transaction store: a command
returns the new store only on success, which models the source's
transactional discipline (all writes of a command commit together, and on
any error the transaction is rolled back before the error propagates).
Request logging is observational only and elided. -/

/-- `CheckoutService.create_checkout`. -/
def create_checkout (cat : Catalog) (s : TransState)
    (checkout_req : UnifiedCheckoutCreateRequest) (idempotency_key : String)
    (n : Nat) : Except UcpErr (Checkout × TransState × Nat) :=
  let request_hash := ReqHash.createH checkout_req
  match lookupAssoc s.idempotency idempotency_key with
  | some existing_record =>
    if existing_record.request_hash ≠ request_hash then
      .error (IdempotencyConflictError
        "Idempotency key reused with different parameters")
    else .ok (existing_record.response_body, s, n)
  | none =>
    let idstep : String × Nat :=
      if pyStrTruthy checkout_req.id then (checkout_req.id.getD "", n)
      else (freshId n, n + 1)
    let lstep : List LineItemResponse × Nat :=
      checkout_req.line_items.foldl
        (fun (acc : List LineItemResponse × Nat) li_req =>
          (acc.1 ++ [{ id := freshId acc.2,
                       item := { id := li_req.item.id,
                                 title := li_req.item.title, price := 0 },
                       quantity := li_req.quantity, totals := [] }],
           acc.2 + 1))
        ([], idstep.2)
    let line_items := lstep.1
    let all_li_ids := line_items.map (fun li => li.id)
    let fstep : Option (List FulfillmentMethodResponse) × Nat :=
      match checkout_req.fulfillment with
      | none => (none, lstep.2)
      | some method_reqs =>
        let ms := method_reqs.foldl
          (fun (acc : List FulfillmentMethodResponse × Nat) method_req =>
            let mid : String × Nat :=
              if pyStrTruthy method_req.id then
                (method_req.id.getD "", acc.2)
              else (freshId acc.2, acc.2 + 1)
            let gstep : List FulfillmentGroupResponse × Nat :=
              method_req.groups.foldl
                (fun (gacc : List FulfillmentGroupResponse × Nat) group_req =>
                  let gid : String × Nat :=
                    if pyStrTruthy group_req.id then
                      (group_req.id.getD "", gacc.2)
                    else ("group_" ++ freshId gacc.2, gacc.2 + 1)
                  (gacc.1 ++
                    [{ id := gid.1,
                       line_item_ids :=
                         pyOrList group_req.line_item_ids all_li_ids,
                       options := [],
                       selected_option_id := group_req.selected_option_id }],
                   gid.2))
                ([], mid.2)
            let dstep : List ShippingDestinationResponse × Nat :=
              method_req.destinations.foldl
                (fun (dacc : List ShippingDestinationResponse × Nat)
                    dest_req =>
                  let did : String × Nat :=
                    if pyStrTruthy dest_req.id then
                      (dest_req.id.getD "", dacc.2)
                    else (freshId dacc.2, dacc.2 + 1)
                  (dacc.1 ++
                    [{ id := did.1,
                       address_country := dest_req.address_country,
                       postal_code := dest_req.postal_code,
                       address_region := dest_req.address_region,
                       address_locality := dest_req.address_locality,
                       street_address := dest_req.street_address }],
                   did.2))
                ([], gstep.2)
            (acc.1 ++
              [{ id := mid.1, type := method_req.type,
                 line_item_ids := pyOrList method_req.line_item_ids all_li_ids,
                 groups := gstep.1,
                 destinations := dstep.1,
                 selected_destination_id :=
                   method_req.selected_destination_id }],
             dstep.2))
          ([], lstep.2)
        (some ms.1, ms.2)
    let checkout : Checkout :=
      { id := idstep.1,
        status := .inProgress,
        currency := checkout_req.currency,
        line_items := line_items,
        totals := [],
        fulfillment := fstep.1,
        discounts := checkout_req.discounts,
        buyer := checkout_req.buyer,
        payment := { selected_instrument_id :=
                       checkout_req.payment.selected_instrument_id,
                     instruments := checkout_req.payment.instruments },
        order := none }
    match _recalculate_totals cat checkout fstep.2 with
    | .error e => .error e
    | .ok (checkout1, n') =>
      match _validate_inventory s.inventory checkout1.line_items with
      | .error e => .error e
      | .ok _ =>
        let final := { checkout1 with
                       status := CheckoutStatus.readyForComplete }
        let record : IdempotencyRecord :=
          { key := idempotency_key, request_hash := request_hash,
            response_status := 201, response_body := final }
        .ok (final,
             { s with
               checkouts := setAssoc s.checkouts final.id final,
               idempotency :=
                 setAssoc s.idempotency idempotency_key record }, n')

/-- The destination loop of the fulfillment merge: convert each requested
destination in order, persisting it as a customer address (and adopting
the persisted id) when the buyer is known. -/
def mergeDestinations (existing : Checkout) :
    List ShippingDestinationRequest → TransState → Nat →
      List ShippingDestinationResponse × TransState × Nat
  | [], s, n => ([], s, n)
  | dest_req :: rest, s, n =>
    let buyer_known :=
      match existing.buyer with
      | some b => pyStrTruthy b.email
      | none => false
    let saved : String × TransState × Nat :=
      if buyer_known then
        save_customer_address s
          ((existing.buyer.bind (fun b => b.email)).getD "") dest_req n
      else (dest_req.id.getD "", s, n)
    let r := mergeDestinations existing rest saved.2.1 saved.2.2
    ({ id := saved.1,
       address_country := dest_req.address_country,
       postal_code := dest_req.postal_code,
       address_region := dest_req.address_region,
       address_locality := dest_req.address_locality,
       street_address := dest_req.street_address } :: r.1, r.2.1, r.2.2)

/-- The destination resolution of one merged method: provided
destinations are converted (and persisted for known buyers); otherwise
the existing method's destinations are preserved; otherwise the buyer's
stored addresses are offered; non-shipping methods get none. -/
def mergeMethodDestinations (existing : Checkout)
    (customer_addresses : List CustomerAddress)
    (existing_method : Option FulfillmentMethodResponse)
    (m_req : FulfillmentMethodRequest) (s : TransState) (n : Nat) :
    List ShippingDestinationResponse × TransState × Nat :=
  if m_req.type == "shipping" then
    if !m_req.destinations.isEmpty then
      mergeDestinations existing m_req.destinations s n
    else if (match existing_method with
             | some em => !em.destinations.isEmpty
             | none => false) then
      ((existing_method.map (fun em => em.destinations)).getD [], s, n)
    else if !customer_addresses.isEmpty then
      (customer_addresses.map (fun addr =>
        { id := addr.id,
          street_address := addr.street_address,
          address_locality := addr.city,
          address_region := addr.state,
          postal_code := addr.postal_code,
          address_country := addr.country }), s, n)
    else ([], s, n)
  else ([], s, n)

/-- One method of the hierarchical fulfillment update merge of
`update_checkout` (`existing` is the session as already mutated by the
earlier steps of the update). -/
def mergeMethodReq (existing : Checkout)
    (customer_addresses : List CustomerAddress)
    (m_req : FulfillmentMethodRequest) (s : TransState) (n : Nat) :
    FulfillmentMethodResponse × TransState × Nat :=
  let existing_methods := existing.fulfillment.getD []
  let existing_method : Option FulfillmentMethodResponse :=
    if !existing_methods.isEmpty then
      let em0 :=
        match m_req.id with
        | some rid => existing_methods.find? (fun m => m.id == rid)
        | none => none
      if em0.isNone && !pyStrTruthy m_req.id &&
          existing_methods.length == 1 then
        existing_methods.head?
      else em0
    else none
  let mid1 : Option String :=
    if existing_method.isSome && !pyStrTruthy m_req.id then
      existing_method.map (fun m => m.id)
    else m_req.id
  let midstep : String × Nat :=
    if pyStrTruthy mid1 then (mid1.getD "", n) else (freshId n, n + 1)
  let method_li_ids :=
    pyOrList m_req.line_item_ids (existing.line_items.map (fun li => li.id))
  let dstep := mergeMethodDestinations existing customer_addresses
    existing_method m_req s midstep.2
  let gstep : List FulfillmentGroupResponse × Nat :=
    if !m_req.groups.isEmpty then
      m_req.groups.foldl
        (fun (gacc : List FulfillmentGroupResponse × Nat) g_req =>
          let gid : String × Nat :=
            if pyStrTruthy g_req.id then (g_req.id.getD "", gacc.2)
            else ("group_" ++ freshId gacc.2, gacc.2 + 1)
          (gacc.1 ++
            [{ id := gid.1,
               line_item_ids := pyOrList g_req.line_item_ids
                 (existing.line_items.map (fun li => li.id)),
               options := [],
               selected_option_id := g_req.selected_option_id }],
           gid.2))
        ([], dstep.2.2)
    else if (match existing_method with
             | some em => !em.groups.isEmpty
             | none => false) then
      ((existing_method.map (fun em => em.groups)).getD [], dstep.2.2)
    else ([], dstep.2.2)
  ({ id := midstep.1, type := m_req.type, line_item_ids := method_li_ids,
     groups := gstep.1, destinations := dstep.1,
     selected_destination_id := m_req.selected_destination_id },
   dstep.2.1, gstep.2)

/-- The fulfillment merge loop of `update_checkout`. -/
def mergeMethods (existing : Checkout)
    (customer_addresses : List CustomerAddress) :
    List FulfillmentMethodRequest → TransState → Nat →
      List FulfillmentMethodResponse × TransState × Nat
  | [], s, n => ([], s, n)
  | m_req :: rest, s, n =>
    let r := mergeMethodReq existing customer_addresses m_req s n
    let rs := mergeMethods existing customer_addresses rest r.2.1 r.2.2
    (r.1 :: rs.1, rs.2.1, rs.2.2)

/-- The fulfillment step of the partial update: when the request carries
a fulfillment object, merge its methods against the (already mutated)
session, fetching the known buyer's stored addresses first. -/
def applyFulfillmentUpdate (s : TransState) (existing4 : Checkout)
    (ful : Option (List FulfillmentMethodRequest)) (n : Nat) :
    Checkout × TransState × Nat :=
  match ful with
  | none => (existing4, s, n)
  | some method_reqs =>
    let customer_addresses :=
      match existing4.buyer with
      | some b =>
        if pyStrTruthy b.email then
          get_customer_addresses s (b.email.getD "")
        else []
      | none => []
    let r := mergeMethods existing4 customer_addresses method_reqs s n
    ({ existing4 with fulfillment := some r.1 }, r.2.1, r.2.2)

/-- The partial-update mutation chain of `update_checkout`: replace line
items, currency, payment, buyer, the merged fulfillment tree, and the
discounts when the request carries them; returns the mutated session, the
store (extended with persisted customer addresses) and the id counter. -/
def applyUpdateRequest (s : TransState) (stored : Checkout)
    (checkout_req : UnifiedCheckoutUpdateRequest) (n : Nat) :
    Checkout × TransState × Nat :=
  let lstep : Checkout × Nat :=
    if !checkout_req.line_items.isEmpty then
      let r := checkout_req.line_items.foldl
        (fun (acc : List LineItemResponse × Nat) li_req =>
          let lid : String × Nat :=
            if pyStrTruthy li_req.id then (li_req.id.getD "", acc.2)
            else (freshId acc.2, acc.2 + 1)
          (acc.1 ++ [{ id := lid.1,
                       item := { id := li_req.item.id,
                                 title := li_req.item.title,
                                 price := 0 },
                       quantity := li_req.quantity, totals := [] }],
           lid.2))
        ([], n)
      ({ stored with line_items := r.1 }, r.2)
    else (stored, n)
  let existing2 :=
    if pyStrTruthy checkout_req.currency then
      { lstep.1 with currency := checkout_req.currency.getD "" }
    else lstep.1
  let existing3 :=
    match checkout_req.payment with
    | some p =>
      { existing2 with
        payment := { selected_instrument_id := p.selected_instrument_id,
                     instruments := p.instruments } }
    | none => existing2
  let existing4 :=
    match checkout_req.buyer with
    | some b => { existing3 with buyer := some b }
    | none => existing3
  let fstep := applyFulfillmentUpdate s existing4 checkout_req.fulfillment
    lstep.2
  let existing5 :=
    match checkout_req.discounts with
    | some d => { fstep.1 with discounts := some d }
    | none => fstep.1
  (existing5, fstep.2.1, fstep.2.2)

/-- `CheckoutService.update_checkout`. -/
def update_checkout (cat : Catalog) (s : TransState) (checkout_id : String)
    (checkout_req : UnifiedCheckoutUpdateRequest) (idempotency_key : String)
    (n : Nat) : Except UcpErr (Checkout × TransState × Nat) :=
  let request_hash := ReqHash.updateH checkout_req
  match lookupAssoc s.idempotency idempotency_key with
  | some existing_record =>
    if existing_record.request_hash ≠ request_hash then
      .error (IdempotencyConflictError
        "Idempotency key reused with different parameters")
    else .ok (existing_record.response_body, s, n)
  | none =>
    match lookupAssoc s.checkouts checkout_id with
    | none => .error (ResourceNotFoundError "Checkout session not found")
    | some stored =>
      match _ensure_modifiable stored "update" with
      | .error e => .error e
      | .ok _ =>
        let ustep := applyUpdateRequest s stored checkout_req n
        match _recalculate_totals cat ustep.1 ustep.2.2 with
        | .error e => .error e
        | .ok (updated, n') =>
          match _validate_inventory ustep.2.1.inventory
              updated.line_items with
          | .error e => .error e
          | .ok _ =>
            let record : IdempotencyRecord :=
              { key := idempotency_key, request_hash := request_hash,
                response_status := 200, response_body := updated }
            .ok (updated,
                 { ustep.2.1 with
                   checkouts :=
                     setAssoc ustep.2.1.checkouts checkout_id updated,
                   idempotency :=
                     setAssoc ustep.2.1.idempotency idempotency_key record },
                 n')

/-- The fulfillment-completion validation loop of `complete_checkout`: a
method is skipped only when it is a shipping method without a truthy
selected destination; any of its groups with a truthy selected option
validates the completion. -/
def fulfillmentValid (checkout : Checkout) : Bool :=
  match checkout.fulfillment with
  | none => false
  | some methods =>
    methods.any (fun method =>
      !(method.type == "shipping" &&
          !pyStrTruthy method.selected_destination_id) &&
        method.groups.any (fun group =>
          pyStrTruthy group.selected_option_id))

/-- The reservation loop of `complete_checkout`: atomically reserve each
line item whose product exists in the catalog; the first failed
reservation aborts with `OUT_OF_STOCK` (409). -/
def reserveLines (cat : Catalog) :
    List LineItemResponse → List (String × Int) →
      Except UcpErr (List (String × Int))
  | [], inventory => .ok inventory
  | line :: rest, inventory =>
    if (get_product cat line.item.id).isSome then
      let r := reserve_stock inventory line.item.id line.quantity
      if r.1 then reserveLines cat rest r.2
      else
        .error (OutOfStockError
          ("Item " ++ line.item.id ++ " is out of stock") 409)
    else reserveLines cat rest inventory

/-- `CheckoutService.complete_checkout`. -/
def complete_checkout (cat : Catalog) (base_url : String) (s : TransState)
    (checkout_id : String) (payment : PaymentCreateRequest)
    (risk_signals : String) (ap2 : Option String) (idempotency_key : String)
    (n : Nat) : Except UcpErr (Checkout × TransState × Nat) :=
  let request_hash := ReqHash.completeH payment risk_signals ap2
  match lookupAssoc s.idempotency idempotency_key with
  | some existing_record =>
    if existing_record.request_hash ≠ request_hash then
      .error (IdempotencyConflictError
        "Idempotency key reused with different parameters")
    else .ok (existing_record.response_body, s, n)
  | none =>
    match lookupAssoc s.checkouts checkout_id with
    | none => .error (ResourceNotFoundError "Checkout session not found")
    | some checkout =>
      match _ensure_modifiable checkout "complete" with
      | .error e => .error e
      | .ok _ =>
        match _process_payment payment with
        | .error e => .error e
        | .ok _ =>
          if !fulfillmentValid checkout then
            .error (InvalidRequestError
              "Fulfillment address and option must be selected before completion.")
          else
            match reserveLines cat checkout.line_items s.inventory with
            | .error e => .error e
            | .ok inventory' =>
              let order_id := freshId n
              let permalink := base_url ++ "/orders/" ++ order_id
              let completed :=
                { checkout with
                  status := CheckoutStatus.completed,
                  order := some { id := order_id,
                                  permalink_url := permalink } }
              let order : OrderRec :=
                { id := order_id,
                  checkout_id := completed.id,
                  permalink_url := permalink,
                  line_items := completed.line_items.map (fun li =>
                    { id := li.id, item := li.item,
                      quantity_total := li.quantity, quantity_fulfilled := 0,
                      totals := li.totals, status := "processing" }),
                  totals := completed.totals }
              let record : IdempotencyRecord :=
                { key := idempotency_key, request_hash := request_hash,
                  response_status := 200, response_body := completed }
              .ok (completed,
                   { s with
                     inventory := inventory',
                     orders := setAssoc s.orders order.id order,
                     checkouts := setAssoc s.checkouts checkout_id completed,
                     idempotency :=
                       setAssoc s.idempotency idempotency_key record },
                   n + 1)

/-- `CheckoutService.cancel_checkout`. -/
def cancel_checkout (s : TransState) (checkout_id : String)
    (idempotency_key : String) (n : Nat) :
    Except UcpErr (Checkout × TransState × Nat) :=
  let request_hash := ReqHash.cancelH
  match lookupAssoc s.idempotency idempotency_key with
  | some existing_record =>
    if existing_record.request_hash ≠ request_hash then
      .error (IdempotencyConflictError
        "Idempotency key reused with different parameters")
    else .ok (existing_record.response_body, s, n)
  | none =>
    match lookupAssoc s.checkouts checkout_id with
    | none => .error (ResourceNotFoundError "Checkout session not found")
    | some checkout =>
      match _ensure_modifiable checkout "cancel" with
      | .error e => .error e
      | .ok _ =>
        let canceled := { checkout with status := CheckoutStatus.canceled }
        let record : IdempotencyRecord :=
          { key := idempotency_key, request_hash := request_hash,
            response_status := 200, response_body := canceled }
        .ok (canceled,
             { s with
               checkouts := setAssoc s.checkouts checkout_id canceled,
               idempotency :=
                 setAssoc s.idempotency idempotency_key record }, n)

/-- A state-mutating command of the checkout engine. -/
inductive Cmd where
  | create (req : UnifiedCheckoutCreateRequest) (key : String)
  | update (checkout_id : String) (req : UnifiedCheckoutUpdateRequest)
      (key : String)
  | complete (checkout_id : String) (payment : PaymentCreateRequest)
      (risk_signals : String) (ap2 : Option String) (key : String)
  | cancel (checkout_id : String) (key : String)
deriving DecidableEq, Repr

/-- The idempotency key supplied with a command. -/
def Cmd.key : Cmd → String
  | .create _ k => k
  | .update _ _ k => k
  | .complete _ _ _ _ k => k
  | .cancel _ k => k

/-- The request fingerprint computed for a command. -/
def Cmd.hash : Cmd → ReqHash
  | .create req _ => .createH req
  | .update _ req _ => .updateH req
  | .complete _ p r a _ => .completeH p r a
  | .cancel _ _ => .cancelH

/-- Dispatch a command against the stores. -/
def execCmd (cat : Catalog) (base_url : String) (s : TransState) (n : Nat) :
    Cmd → Except UcpErr (Checkout × TransState × Nat)
  | .create req key => create_checkout cat s req key n
  | .update cid req key => update_checkout cat s cid req key n
  | .complete cid p r a key => complete_checkout cat base_url s cid p r a key n
  | .cancel cid key => cancel_checkout s cid key n

/-! ## Statement vocabulary -/

/-- Sum of the amounts of a totals list. -/
def sumAmounts (ts : List Total) : Int := (ts.map (fun t => t.amount)).sum

/-- Sum of the amounts of the entries of a given type. -/
def sumByType (ty : String) (ts : List Total) : Int :=
  sumAmounts (ts.filter (fun t => t.type == ty))

/-- The totals invariant: exactly one `subtotal` entry, and a trailing
`total` entry equal to subtotal plus fulfillment entries minus discount
entries. -/
def totalsInvariant (ts : List Total) : Prop :=
  ts.filter (fun t => t.type == "subtotal") =
      [⟨"subtotal", sumByType "subtotal" ts⟩] ∧
    ts.getLast? = some ⟨"total",
      sumByType "subtotal" ts + sumByType "fulfillment" ts -
        sumByType "discount" ts⟩

/-- A session status the store may legitimately hold. -/
def goodStatus (c : Checkout) : Prop :=
  c.status = .readyForComplete ∨ c.status = .completed ∨
    c.status = .canceled

/-- Every stored session has a legitimate status. -/
def goodState (s : TransState) : Prop :=
  ∀ p ∈ s.checkouts, goodStatus p.2

/-- Two stores agreeing on everything except the customer-address
tables. -/
def sameStores (s1 s2 : TransState) : Prop :=
  s1.inventory = s2.inventory ∧ s1.checkouts = s2.checkouts ∧
    s1.orders = s2.orders ∧ s1.idempotency = s2.idempotency

/-- Modelled from the spec: the claimed `complete` precondition, namely
"at least one fulfillment method whose type is `shipping` has a
`selected_destination_id`, and at least one of that same method's groups
has a `selected_option_id`". -/
def specCompleteRequirement (c : Checkout) : Bool :=
  (c.fulfillment.getD []).any (fun m =>
    m.type == "shipping" && m.selected_destination_id.isSome &&
      m.groups.any (fun g => g.selected_option_id.isSome))

/-- Modelled from the spec: the claimed free-shipping eligibility, namely
"some promotion of type `free_shipping` has `min_subtotal ≤` the grand
total so far, or some promotion lists one of the method's product ids in
`eligible_item_ids`". -/
def specFreeShippingEligible (promotions : List Promotion) (grand : Int)
    (ids : List String) : Bool :=
  promotions.any (fun p => p.type == "free_shipping" &&
      (match p.min_subtotal with
       | some m => decide (m ≤ grand)
       | none => false)) ||
    promotions.any (fun p =>
      ids.any (fun i => p.eligible_item_ids.contains i))

/-- Integer percentage truncation as the spec states it. -/
def specPercentAmount (g v : Int) : Int := (g * v) / 100

/-- The relation between an input line item and its recomputed version:
the product is found in the catalog, price and title are the catalog's
(client-supplied values are discarded), and the totals carry exactly one
`subtotal` entry equal to catalog price times quantity. -/
def lineRel (cat : Catalog) (li lo : LineItemResponse) : Prop :=
  ∃ p, get_product cat li.item.id = some p ∧
    lo.item.id = li.item.id ∧ lo.item.price = p.price ∧
    lo.item.title = p.title ∧ lo.quantity = li.quantity ∧
    lo.totals.filter (fun t => t.type == "subtotal") =
      [⟨"subtotal", p.price * li.quantity⟩]

/-! ## Concrete scenarios (used by witnesses and counterexamples) -/

/-- Example catalog: one product, one US standard rate, one percentage
discount code. -/
def exCatalog : Catalog :=
  { products := [⟨"rose", "Red Rose", 1000⟩],
    promotions := [],
    shipping_rates := [⟨"std-ship", "US", "standard", 500, "Standard"⟩],
    discounts := [⟨"10OFF", "percentage", 10, "Ten off"⟩] }

/-- Example transactions store: stock of five roses, nothing else. -/
def exState : TransState := { inventory := [("rose", 5)] }

/-- Example create request: two roses shipped to a selected US
destination with the standard option selected. -/
def exCreateReq : UnifiedCheckoutCreateRequest :=
  { currency := "USD",
    line_items := [{ item := { id := "rose", title := "client title",
                               price := some 1 }, quantity := 2 }],
    payment := { instruments :=
                   [{ id := "i1", handler_id := "mock_payment_handler",
                      credential := some (.token "success_token") }],
                 selected_instrument_id := some "i1" },
    fulfillment := some
      [{ type := "shipping",
         destinations := [{ id := some "dest_1",
                            address_country := some "US" }],
         selected_destination_id := some "dest_1",
         groups := [{ selected_option_id := some "std-ship" }] }] }

/-- Example complete payment: the mock handler's success token. -/
def exPayment : PaymentCreateRequest :=
  { instruments := [{ id := "i1", handler_id := "mock_payment_handler",
                      credential := some (.token "success_token") }],
    selected_instrument_id := some "i1" }

/-- A fallback checkout value for extracting concrete outputs. -/
def emptyCheckout : Checkout :=
  { id := "", status := .canceled, currency := "",
    line_items := [], totals := [] }

/-- The concrete output of the example create. -/
def exCreateOutput : Checkout × TransState × Nat :=
  ((create_checkout exCatalog exState exCreateReq "K1" 0).toOption).getD
    (emptyCheckout, {}, 0)

/-- The concrete output of the example update (which clears the discount
codes and keeps everything else). -/
def exUpdateReq : UnifiedCheckoutUpdateRequest :=
  { currency := some "USD" }

/-- The concrete output of running the example update after the create. -/
def exUpdateOutput : Checkout × TransState × Nat :=
  ((update_checkout exCatalog exCreateOutput.2.1 exCreateOutput.1.id
      exUpdateReq "K2" exCreateOutput.2.2).toOption).getD
    (emptyCheckout, {}, 0)

/-- The concrete output of completing the example session. -/
def exCompleteOutput : Checkout × TransState × Nat :=
  ((complete_checkout exCatalog "http://m" exCreateOutput.2.1
      exCreateOutput.1.id exPayment "risk" none "K3"
      exCreateOutput.2.2).toOption).getD (emptyCheckout, {}, 0)

/-- The example catalog after a price change (for C5): the rose now costs
2000 minor units. -/
def exNewCatalog : Catalog :=
  { exCatalog with products := [⟨"rose", "Red Rose", 2000⟩] }

/-- The stored session after the example create (for C5). -/
def exStoredSession : Checkout :=
  (lookupAssoc exCreateOutput.2.1.checkouts exCreateOutput.1.id).getD
    emptyCheckout

/-- The concrete output of completing against the changed catalog. -/
def exStaleCompleteOutput : Checkout × TransState × Nat :=
  ((complete_checkout exNewCatalog "http://m" exCreateOutput.2.1
      exCreateOutput.1.id exPayment "risk" none "K3"
      exCreateOutput.2.2).toOption).getD (emptyCheckout, {}, 0)

/-- A stored session fulfilled by a `digital` method with a selected
option and no shipping destination anywhere (for C6). -/
def exDigitalSession : Checkout :=
  { id := "c6", status := .readyForComplete, currency := "USD",
    line_items := [{ id := "L1", item := ⟨"rose", "Red Rose", 1000⟩,
                     quantity := 1,
                     totals := [⟨"subtotal", 1000⟩, ⟨"total", 1000⟩] }],
    totals := [⟨"subtotal", 1000⟩, ⟨"total", 1000⟩],
    fulfillment := some [{ id := "m1", type := "digital",
                           groups := [{ id := "g1",
                                        selected_option_id := some "o1" }] }] }

/-- The store holding the digital session. -/
def exDigitalState : TransState :=
  { inventory := [("rose", 5)], checkouts := [("c6", exDigitalSession)] }

/-- A promotion of a non-`free_shipping` type listing an eligible item
(for C8). -/
def exTypedPromo : Promotion :=
  { id := "pX", type := "discount", eligible_item_ids := ["rose"] }

/-- A `free_shipping` promotion with `min_subtotal = 0` (for C8). -/
def exZeroMinPromo : Promotion :=
  { id := "pY", type := "free_shipping", min_subtotal := some 0 }

/-- The US address used in the C8 scenario. -/
def exAddress : PostalAddress := { address_country := some "US" }

/-- The catalog of the C9 scenario: one 100-unit product and a 29 percent
discount code. -/
def exDiscountCatalog : Catalog :=
  { products := [⟨"rose", "Red Rose", 100⟩],
    promotions := [],
    shipping_rates := [],
    discounts := [⟨"29OFF", "percentage", 29, "29 off"⟩] }

/-- The session of the C9 scenario: one unit, code `29OFF`. -/
def exDiscountSession : Checkout :=
  { id := "c9", status := .readyForComplete, currency := "USD",
    line_items := [{ id := "L1", item := ⟨"rose", "x", 0⟩, quantity := 1,
                     totals := [] }],
    totals := [], discounts := some { codes := ["29OFF"] } }

/-- A cached idempotency record under key `K` (for C3). -/
def exIdemRecord : IdempotencyRecord :=
  { key := "K", request_hash := ReqHash.cancelH,
    response_status := 200, response_body := exDigitalSession }

/-- A store whose idempotency table holds `exIdemRecord` (for C3). -/
def exIdemState : TransState :=
  { inventory := [("rose", 5)],
    idempotency := [("K", exIdemRecord)] }

/-- A session referencing a product absent from the example catalog. -/
def exMissingSession : Checkout :=
  { id := "cm", status := .readyForComplete, currency := "USD",
    line_items := [{ id := "L9", item := ⟨"ghost", "Ghost", 7⟩,
                     quantity := 1, totals := [] }],
    totals := [] }

/-- The concrete output of recomputing the digital session. -/
def exRecalcOutput : Checkout × Nat :=
  ((_recalculate_totals exCatalog exDigitalSession 0).toOption).getD
    (emptyCheckout, 0)

/-- The concrete output of completing the digital session (for C6). -/
def exDigitalCompleteOutput : Checkout × TransState × Nat :=
  ((complete_checkout exCatalog "http://m" exDigitalState "c6" exPayment
      "r" none "K" 0).toOption).getD (emptyCheckout, {}, 0)

/-- A store holding a session with no fulfillment selection at all (for
C6's `INVALID_REQUEST` branch). -/
def exInvalidState : TransState :=
  { inventory := [("rose", 5)], checkouts := [("cm", exMissingSession)] }

/-- A store with exhausted stock under the digital session (for C7). -/
def exPoorState : TransState :=
  { inventory := [("rose", 0)], checkouts := [("c6", exDigitalSession)] }

/-- A store holding one completed and one canceled session (for C4). -/
def exTerminalState : TransState :=
  { inventory := [("rose", 5)],
    checkouts :=
      [("done", { exDigitalSession with
                  id := "done", status := CheckoutStatus.completed }),
       ("gone", { exDigitalSession with
                  id := "gone", status := CheckoutStatus.canceled })] }

/-! ## Bookkeeping lemmas -/

theorem sumAmounts_nil : sumAmounts [] = 0 := rfl

theorem sumAmounts_cons (t : Total) (l : List Total) :
    sumAmounts (t :: l) = t.amount + sumAmounts l := by
  simp [sumAmounts]

theorem sumAmounts_append (l m : List Total) :
    sumAmounts (l ++ m) = sumAmounts l + sumAmounts m := by
  simp [sumAmounts]

theorem groupStep_spec (copts : List FulfillmentOptionResponse)
    (group : FulfillmentGroupResponse) :
    (∀ e ∈ (groupStep copts group).2.1, e.type = "fulfillment") ∧
      (groupStep copts group).2.2 = sumAmounts (groupStep copts group).2.1 := by
  unfold groupStep
  dsimp only
  split <;> split
  · split <;> exact ⟨by simp, by simp [sumAmounts]⟩
  · exact ⟨by simp, by simp [sumAmounts]⟩
  · split <;> exact ⟨by simp, by simp [sumAmounts]⟩
  · exact ⟨by simp, by simp [sumAmounts]⟩

theorem processGroups_spec (copts : List FulfillmentOptionResponse)
    (gs : List FulfillmentGroupResponse) :
    (∀ e ∈ (processGroups copts gs).2.1, e.type = "fulfillment") ∧
      (processGroups copts gs).2.2 =
        sumAmounts (processGroups copts gs).2.1 := by
  induction gs with
  | nil => exact ⟨by simp [processGroups], by simp [processGroups, sumAmounts]⟩
  | cons g rest ih =>
    have hg := groupStep_spec copts g
    constructor
    · intro e he
      simp only [processGroups, List.mem_append] at he
      rcases he with h | h
      · exact hg.1 e h
      · exact ih.1 e h
    · simp only [processGroups]
      rw [sumAmounts_append, ← hg.2, ← ih.2]

theorem methodStep_spec (cat : Catalog) (promotions : List Promotion)
    (line_items : List LineItemResponse)
    (method : FulfillmentMethodResponse) (g : Int) (n : Nat) :
    (∀ e ∈ (methodStep cat promotions line_items method g n).2.1,
        e.type = "fulfillment") ∧
      (methodStep cat promotions line_items method g n).2.2.1 =
        g + sumAmounts (methodStep cat promotions line_items method g n).2.1
    := by
  unfold methodStep
  dsimp only
  split
  · exact ⟨by simp, by simp [sumAmounts]⟩
  · split
    · have h := processGroups_spec
        (methodCalculatedOptions cat promotions line_items g method)
        method.groups
      exact ⟨h.1, by rw [← h.2]⟩
    · exact ⟨by simp, by simp [sumAmounts]⟩

theorem processMethods_spec (cat : Catalog) (promotions : List Promotion)
    (line_items : List LineItemResponse)
    (ms : List FulfillmentMethodResponse) : ∀ (g : Int) (n : Nat),
    (∀ e ∈ (processMethods cat promotions line_items ms g n).2.1,
        e.type = "fulfillment") ∧
      (processMethods cat promotions line_items ms g n).2.2.1 =
        g + sumAmounts (processMethods cat promotions line_items ms g n).2.1
    := by
  induction ms with
  | nil =>
    intro g n
    exact ⟨by simp [processMethods], by simp [processMethods, sumAmounts]⟩
  | cons m rest ih =>
    intro g n
    have hm := methodStep_spec cat promotions line_items m g n
    have hr := ih (methodStep cat promotions line_items m g n).2.2.1
      (methodStep cat promotions line_items m g n).2.2.2
    constructor
    · intro e he
      simp only [processMethods, List.mem_append] at he
      rcases he with h | h
      · exact hm.1 e h
      · exact hr.1 e h
    · simp only [processMethods]
      rw [sumAmounts_append]
      have h1 := hm.2
      have h2 := hr.2
      omega

theorem applyDiscounts_spec (cat : Catalog) (codes : List String) :
    ∀ g : Int,
    (∀ e ∈ (applyDiscounts cat codes g).2.1, e.type = "discount") ∧
      (applyDiscounts cat codes g).2.2 =
        g - sumAmounts (applyDiscounts cat codes g).2.1 := by
  induction codes with
  | nil =>
    intro g
    exact ⟨by simp [applyDiscounts], by simp [applyDiscounts, sumAmounts]⟩
  | cons code rest ih =>
    intro g
    unfold applyDiscounts
    dsimp only
    split
    · exact ih g
    · rename_i discount_obj heq
      split
      · have hr := ih (g - discountAmountOf g discount_obj)
        constructor
        · intro e he
          simp only [List.mem_cons] at he
          rcases he with h | h
          · rw [h]
          · exact hr.1 e h
        · rw [sumAmounts_cons]
          dsimp only
          rw [hr.2]
          ring
      · exact ih g

theorem fulfillmentPhase_spec (cat : Catalog) (lines : List LineItemResponse)
    (ful : Option (List FulfillmentMethodResponse)) (g0 : Int) (n : Nat) :
    (∀ e ∈ (fulfillmentPhase cat lines ful g0 n).2.1,
        e.type = "fulfillment") ∧
      (fulfillmentPhase cat lines ful g0 n).2.2.1 =
        g0 + sumAmounts (fulfillmentPhase cat lines ful g0 n).2.1 := by
  cases ful with
  | none =>
    exact ⟨by simp [fulfillmentPhase], by simp [fulfillmentPhase, sumAmounts]⟩
  | some ms =>
    unfold fulfillmentPhase
    dsimp only
    split
    · exact ⟨by simp, by simp [sumAmounts]⟩
    · exact processMethods_spec cat (get_active_promotions cat) lines ms g0 n

theorem discountPhase_spec (cat : Catalog) (codes : List String) (g1 : Int) :
    (∀ e ∈ (discountPhase cat codes g1).2.1, e.type = "discount") ∧
      (discountPhase cat codes g1).2.2 =
        g1 - sumAmounts (discountPhase cat codes g1).2.1 := by
  unfold discountPhase
  split
  · exact ⟨by simp, by simp [sumAmounts]⟩
  · exact applyDiscounts_spec cat codes g1

theorem recalc_totals_shape (cat : Catalog) (c : Checkout) (n : Nat)
    (c' : Checkout) (n' : Nat)
    (h : _recalculate_totals cat c n = .ok (c', n')) :
    ∃ g0 fE dE,
      c'.totals = ⟨"subtotal", g0⟩ ::
        (fE ++ dE ++ [⟨"total", g0 + sumAmounts fE - sumAmounts dE⟩]) ∧
      (∀ e ∈ fE, e.type = "fulfillment") ∧
      (∀ e ∈ dE, e.type = "discount") := by
  unfold _recalculate_totals at h
  cases hl : recalcLineItems cat c.line_items with
  | error e => rw [hl] at h; cases h
  | ok p =>
    obtain ⟨lines, g0⟩ := p
    rw [hl] at h
    dsimp only at h
    simp only [Except.ok.injEq, Prod.mk.injEq] at h
    obtain ⟨hc, -⟩ := h
    subst hc
    have hf := fulfillmentPhase_spec cat lines c.fulfillment g0 n
    have hd := discountPhase_spec cat ((c.discounts.getD {}).codes)
      (fulfillmentPhase cat lines c.fulfillment g0 n).2.2.1
    refine ⟨g0, (fulfillmentPhase cat lines c.fulfillment g0 n).2.1,
      (discountPhase cat ((c.discounts.getD {}).codes)
        (fulfillmentPhase cat lines c.fulfillment g0 n).2.2.1).2.1,
      ?_, hf.1, hd.1⟩
    have key : (discountPhase cat ((c.discounts.getD {}).codes)
        (fulfillmentPhase cat lines c.fulfillment g0 n).2.2.1).2.2 =
        g0 + sumAmounts (fulfillmentPhase cat lines c.fulfillment g0 n).2.1 -
          sumAmounts (discountPhase cat ((c.discounts.getD {}).codes)
            (fulfillmentPhase cat lines c.fulfillment g0 n).2.2.1).2.1 := by
      rw [hd.2, hf.2]
    dsimp only
    rw [key]

theorem totalsInvariant_of_shape (g0 : Int) (fE dE : List Total)
    (hf : ∀ e ∈ fE, e.type = "fulfillment")
    (hd : ∀ e ∈ dE, e.type = "discount") :
    totalsInvariant (⟨"subtotal", g0⟩ ::
      (fE ++ dE ++ [⟨"total", g0 + sumAmounts fE - sumAmounts dE⟩])) := by
  have hfsub : fE.filter (fun t => t.type == "subtotal") = [] := by
    rw [List.filter_eq_nil_iff]; intro a ha; simp [hf a ha]
  have hdsub : dE.filter (fun t => t.type == "subtotal") = [] := by
    rw [List.filter_eq_nil_iff]; intro a ha; simp [hd a ha]
  have hfful : fE.filter (fun t => t.type == "fulfillment") = fE := by
    rw [List.filter_eq_self]; intro a ha; simp [hf a ha]
  have hdful : dE.filter (fun t => t.type == "fulfillment") = [] := by
    rw [List.filter_eq_nil_iff]; intro a ha; simp [hd a ha]
  have hfdis : fE.filter (fun t => t.type == "discount") = [] := by
    rw [List.filter_eq_nil_iff]; intro a ha; simp [hf a ha]
  have hddis : dE.filter (fun t => t.type == "discount") = dE := by
    rw [List.filter_eq_self]; intro a ha; simp [hd a ha]
  have hsub : sumByType "subtotal" (⟨"subtotal", g0⟩ ::
      (fE ++ dE ++ [⟨"total", g0 + sumAmounts fE - sumAmounts dE⟩])) = g0 := by
    simp [sumByType, List.filter_append, hfsub, hdsub, sumAmounts]
  have hful : sumByType "fulfillment" (⟨"subtotal", g0⟩ ::
      (fE ++ dE ++ [⟨"total", g0 + sumAmounts fE - sumAmounts dE⟩])) =
      sumAmounts fE := by
    simp [sumByType, List.filter_append, hfful, hdful, sumAmounts]
  have hdis : sumByType "discount" (⟨"subtotal", g0⟩ ::
      (fE ++ dE ++ [⟨"total", g0 + sumAmounts fE - sumAmounts dE⟩])) =
      sumAmounts dE := by
    simp [sumByType, List.filter_append, hfdis, hddis, sumAmounts]
  constructor
  · rw [hsub]
    simp [List.filter_append, hfsub, hdsub]
  · rw [hsub, hful, hdis]
    have hshape : (⟨"subtotal", g0⟩ : Total) ::
        (fE ++ dE ++ [(⟨"total", g0 + sumAmounts fE - sumAmounts dE⟩ : Total)]) =
        (⟨"subtotal", g0⟩ :: (fE ++ dE)) ++
          [⟨"total", g0 + sumAmounts fE - sumAmounts dE⟩] := by
      simp
    rw [hshape, List.getLast?_concat]

theorem lookupAssoc_setAssoc_self {α : Type} (l : List (String × α))
    (k : String) (v : α) :
    lookupAssoc (setAssoc l k v) k = some v := by
  unfold setAssoc
  split
  · rename_i hany
    induction l with
    | nil => simp at hany
    | cons p rest ih =>
      by_cases hp : (p.1 == k) = true
      · simp only [List.map_cons, if_pos hp]
        simp [lookupAssoc, List.find?_cons_of_pos]
      · simp only [List.any_cons, hp, Bool.false_or] at hany
        simp only [List.map_cons, if_neg hp]
        unfold lookupAssoc
        rw [List.find?_cons_of_neg _ (by simpa using hp)]
        exact ih hany
  · unfold lookupAssoc
    rw [List.find?_append]
    have hnone : l.find? (fun p => p.1 == k) = none := by
      rw [List.find?_eq_none]
      intro p hp hc
      rename_i hany
      exact hany (by rw [List.any_eq_true]; exact ⟨p, hp, hc⟩)
    simp [hnone, List.find?]

theorem mem_setAssoc {α : Type} {l : List (String × α)} {k : String}
    {v : α} {q : String × α} (h : q ∈ setAssoc l k v) :
    q.2 = v ∨ q ∈ l := by
  unfold setAssoc at h
  split at h
  · rcases List.mem_map.mp h with ⟨p, hp, heq⟩
    by_cases hc : (p.1 == k) = true
    · rw [if_pos hc] at heq
      left; rw [← heq]
    · rw [if_neg hc] at heq
      right; rw [← heq]; exact hp
  · rcases List.mem_append.mp h with h1 | h1
    · right; exact h1
    · left; simp at h1; rw [h1]

theorem recalc_preserves_status (cat : Catalog) (c : Checkout) (n : Nat)
    (c' : Checkout) (n' : Nat)
    (h : _recalculate_totals cat c n = .ok (c', n')) :
    c'.status = c.status ∧ c'.id = c.id := by
  unfold _recalculate_totals at h
  cases hl : recalcLineItems cat c.line_items with
  | error e => rw [hl] at h; cases h
  | ok p =>
    obtain ⟨lines, g0⟩ := p
    rw [hl] at h
    dsimp only at h
    simp only [Except.ok.injEq, Prod.mk.injEq] at h
    obtain ⟨hc, -⟩ := h
    subst hc
    exact ⟨rfl, rfl⟩

set_option maxHeartbeats 2000000 in
/-- C1: after every successful (non-replayed) create or update, the
session's totals list carries exactly one `subtotal` entry and ends in a
`total` entry whose amount is the subtotal amount plus the sum of all
`fulfillment` entries minus the sum of all `discount` entries; the
returned session is the stored one. -/
theorem C1_trailing_total_invariant :
    (∀ (cat : Catalog) (s : TransState)
       (req : UnifiedCheckoutCreateRequest) (key : String) (n : Nat)
       (out : Checkout × TransState × Nat),
       lookupAssoc s.idempotency key = none →
       create_checkout cat s req key n = .ok out →
       totalsInvariant out.1.totals ∧
         lookupAssoc out.2.1.checkouts out.1.id = some out.1) ∧
    (∀ (cat : Catalog) (s : TransState) (cid : String)
       (req : UnifiedCheckoutUpdateRequest) (key : String) (n : Nat)
       (out : Checkout × TransState × Nat),
       lookupAssoc s.idempotency key = none →
       update_checkout cat s cid req key n = .ok out →
       totalsInvariant out.1.totals ∧
         lookupAssoc out.2.1.checkouts cid = some out.1) := by
  constructor
  · intro cat s req key n out hidem h
    unfold create_checkout at h
    rw [hidem] at h
    dsimp only at h
    split at h
    · cases h
    · rename_i checkout1 n1 hr
      split at h
      · cases h
      · simp only [Except.ok.injEq] at h
        subst h
        obtain ⟨g0, fE, dE, hshape, hfE, hdE⟩ :=
          recalc_totals_shape _ _ _ _ _ hr
        constructor
        · show totalsInvariant checkout1.totals
          rw [hshape]
          exact totalsInvariant_of_shape g0 fE dE hfE hdE
        · exact lookupAssoc_setAssoc_self _ _ _
  · intro cat s cid req key n out hidem h
    unfold update_checkout at h
    rw [hidem] at h
    dsimp only at h
    split at h
    · cases h
    · rename_i stored hstored
      split at h
      · cases h
      · rename_i u hmod
        split at h
        · cases h
        · rename_i updated n1 hr
          split at h
          · cases h
          · simp only [Except.ok.injEq] at h
            subst h
            obtain ⟨g0, fE, dE, hshape, hfE, hdE⟩ :=
              recalc_totals_shape _ _ _ _ _ hr
            constructor
            · show totalsInvariant updated.totals
              rw [hshape]
              exact totalsInvariant_of_shape g0 fE dE hfE hdE
            · exact lookupAssoc_setAssoc_self _ _ _

/-- Witness for C1: the invariant holds on the concrete create of the
example scenario. -/
theorem C1_witness :
    totalsInvariant exCreateOutput.1.totals ∧
      lookupAssoc exCreateOutput.2.1.checkouts exCreateOutput.1.id =
        some exCreateOutput.1 :=
  C1_trailing_total_invariant.1 exCatalog exState exCreateReq "K1" 0
    exCreateOutput rfl rfl

theorem sumByType_line_pair (b : Int) :
    sumByType "subtotal"
      [⟨"subtotal", b⟩, ⟨"total", b⟩] = b := by
  have hfil : List.filter (fun t => t.type == "subtotal")
      [(⟨"subtotal", b⟩ : Total), ⟨"total", b⟩] = [⟨"subtotal", b⟩] := rfl
  unfold sumByType
  rw [hfil]
  simp [sumAmounts]

theorem recalcLineItems_ok (cat : Catalog) :
    ∀ (ls ls' : List LineItemResponse) (g : Int),
    recalcLineItems cat ls = .ok (ls', g) →
    List.Forall₂ (lineRel cat) ls ls' ∧
      g = (ls'.map (fun lo => sumByType "subtotal" lo.totals)).sum := by
  intro ls
  induction ls with
  | nil =>
    intro ls' g h
    unfold recalcLineItems at h
    simp only [Except.ok.injEq, Prod.mk.injEq] at h
    obtain ⟨h1, h2⟩ := h
    subst h1; subst h2
    exact ⟨List.Forall₂.nil, by simp⟩
  | cons li rest ih =>
    intro ls' g h
    unfold recalcLineItems at h
    cases hp : get_product cat li.item.id with
    | none => rw [hp] at h; cases h
    | some product =>
      rw [hp] at h
      dsimp only at h
      cases hr : recalcLineItems cat rest with
      | error e => rw [hr] at h; cases h
      | ok q =>
        obtain ⟨ls0, g0⟩ := q
        rw [hr] at h
        dsimp only at h
        simp only [Except.ok.injEq, Prod.mk.injEq] at h
        obtain ⟨h1, h2⟩ := h
        subst h1; subst h2
        have ihr := ih ls0 g0 hr
        refine ⟨List.Forall₂.cons
          ⟨product, hp, rfl, rfl, rfl, rfl, rfl⟩ ihr.1, ?_⟩
        simp only [List.map_cons, List.sum_cons]
        rw [← ihr.2]
        have := sumByType_line_pair (product.price * li.quantity)
        rw [this]

theorem recalcLineItems_error_iff (cat : Catalog) :
    ∀ ls : List LineItemResponse,
    (∃ e, recalcLineItems cat ls = .error e) ↔
      ∃ li ∈ ls, get_product cat li.item.id = none := by
  intro ls
  induction ls with
  | nil => simp [recalcLineItems]
  | cons li rest ih =>
    unfold recalcLineItems
    cases hp : get_product cat li.item.id with
    | none =>
      dsimp only
      constructor
      · intro _
        exact ⟨li, List.mem_cons_self li rest, hp⟩
      · intro _
        exact ⟨_, rfl⟩
    | some product =>
      dsimp only
      cases hr : recalcLineItems cat rest with
      | error e =>
        constructor
        · intro _
          obtain ⟨li2, hmem, hnone⟩ := ih.mp ⟨e, hr⟩
          exact ⟨li2, List.mem_cons_of_mem _ hmem, hnone⟩
        · intro _
          exact ⟨e, rfl⟩
      | ok q =>
        obtain ⟨ls0, g0⟩ := q
        dsimp only
        constructor
        · rintro ⟨e, he⟩
          cases he
        · rintro ⟨li2, hmem, hnone⟩
          rcases List.mem_cons.mp hmem with h | h
          · subst h
            rw [hnone] at hp
            cases hp
          · obtain ⟨e, he⟩ := ih.mpr ⟨li2, h, hnone⟩
            rw [he] at hr
            cases hr

theorem recalcLineItems_error_code (cat : Catalog) :
    ∀ (ls : List LineItemResponse) (e : UcpErr),
    recalcLineItems cat ls = .error e →
    e.code = "INVALID_REQUEST" ∧ e.status = 400 := by
  intro ls
  induction ls with
  | nil =>
    intro e h
    cases h
  | cons li rest ih =>
    intro e h
    unfold recalcLineItems at h
    cases hp : get_product cat li.item.id with
    | none =>
      rw [hp] at h
      dsimp only at h
      simp only [Except.error.injEq] at h
      subst h
      exact ⟨rfl, rfl⟩
    | some product =>
      rw [hp] at h
      dsimp only at h
      cases hr : recalcLineItems cat rest with
      | error e2 =>
        rw [hr] at h
        dsimp only at h
        simp only [Except.error.injEq] at h
        subst h
        exact ih e2 hr
      | ok q =>
        obtain ⟨ls0, g0⟩ := q
        rw [hr] at h
        cases h

/-- C2: recomputation reloads each product from the catalog and
overwrites price and title with catalog values; a missing product makes
recomputation fail with `INVALID_REQUEST` (status 400), and it fails only
then; on success each line's totals contain exactly one `subtotal` entry
equal to catalog price times quantity, and the session's leading
`subtotal` entry equals the sum of the line subtotals. -/
theorem C2_authoritative_recomputation :
    ∀ (cat : Catalog) (c : Checkout) (n : Nat),
      ((∃ e, _recalculate_totals cat c n = .error e) ↔
        ∃ li ∈ c.line_items, get_product cat li.item.id = none) ∧
      (∀ e, _recalculate_totals cat c n = .error e →
        e.code = "INVALID_REQUEST" ∧ e.status = 400) ∧
      (∀ c' n', _recalculate_totals cat c n = .ok (c', n') →
        List.Forall₂ (lineRel cat) c.line_items c'.line_items ∧
          c'.totals.head? = some ⟨"subtotal",
            (c'.line_items.map
              (fun lo => sumByType "subtotal" lo.totals)).sum⟩) := by
  intro cat c n
  refine ⟨?_, ?_, ?_⟩
  · rw [← recalcLineItems_error_iff cat c.line_items]
    unfold _recalculate_totals
    cases hl : recalcLineItems cat c.line_items with
    | error e =>
      dsimp only
      exact ⟨fun _ => ⟨e, rfl⟩, fun _ => ⟨e, rfl⟩⟩
    | ok p =>
      obtain ⟨lines, g0⟩ := p
      dsimp only
      constructor
      · rintro ⟨e, he⟩
        cases he
      · rintro ⟨e, he⟩
        cases he
  · intro e h
    unfold _recalculate_totals at h
    cases hl : recalcLineItems cat c.line_items with
    | error e2 =>
      rw [hl] at h
      dsimp only at h
      simp only [Except.error.injEq] at h
      subst h
      exact recalcLineItems_error_code cat c.line_items e2 hl
    | ok p =>
      obtain ⟨lines, g0⟩ := p
      rw [hl] at h
      cases h
  · intro c' n' h
    unfold _recalculate_totals at h
    cases hl : recalcLineItems cat c.line_items with
    | error e => rw [hl] at h; cases h
    | ok p =>
      obtain ⟨lines, g0⟩ := p
      rw [hl] at h
      dsimp only at h
      simp only [Except.ok.injEq, Prod.mk.injEq] at h
      obtain ⟨hc, -⟩ := h
      subst hc
      have hok := recalcLineItems_ok cat c.line_items lines g0 hl
      refine ⟨hok.1, ?_⟩
      show (Total.mk "subtotal" g0 :: _).head? = _
      rw [List.head?_cons, hok.2]

/-- Witness for C2: the concrete recomputation of the digital session,
and the `INVALID_REQUEST` failure on a session whose product is absent
from the catalog. -/
theorem C2_witness :
    (List.Forall₂ (lineRel exCatalog) exDigitalSession.line_items
        exRecalcOutput.1.line_items ∧
      exRecalcOutput.1.totals.head? = some ⟨"subtotal",
        (exRecalcOutput.1.line_items.map
          (fun lo => sumByType "subtotal" lo.totals)).sum⟩) ∧
    (∃ e, _recalculate_totals exCatalog exMissingSession 0 = .error e) :=
  ⟨(C2_authoritative_recomputation exCatalog exDigitalSession 0).2.2
      exRecalcOutput.1 exRecalcOutput.2 rfl,
   (C2_authoritative_recomputation exCatalog exMissingSession 0).1.mpr
      ⟨exMissingSession.line_items.head (by simp [exMissingSession]),
       by simp [exMissingSession], rfl⟩⟩

/-- C3: every state-mutating command (create, update, complete, cancel)
consults the idempotency store first: a record under the supplied key
whose stored request hash matches the incoming request's hash
short-circuits the command and returns the cached response body with the
store unchanged; a record with a different hash raises
`IDEMPOTENCY_CONFLICT` with status 409. -/
theorem C3_idempotency_guard :
    ∀ (cat : Catalog) (base_url : String) (s : TransState) (n : Nat)
      (cmd : Cmd) (record : IdempotencyRecord),
      lookupAssoc s.idempotency cmd.key = some record →
      (record.request_hash = cmd.hash →
        execCmd cat base_url s n cmd = .ok (record.response_body, s, n)) ∧
      (record.request_hash ≠ cmd.hash →
        ∃ e, execCmd cat base_url s n cmd = .error e ∧
          e.code = "IDEMPOTENCY_CONFLICT" ∧ e.status = 409) := by
  intro cat base_url s n cmd record hid
  cases cmd with
  | create req key =>
    rw [show Cmd.key (Cmd.create req key) = key from rfl] at hid
    constructor
    · intro heq
      show create_checkout cat s req key n = _
      unfold create_checkout
      rw [hid]
      dsimp only
      rw [if_neg (fun hne => hne heq)]
    · intro hne
      refine ⟨IdempotencyConflictError
        "Idempotency key reused with different parameters", ?_, rfl, rfl⟩
      show create_checkout cat s req key n = _
      unfold create_checkout
      rw [hid]
      dsimp only
      have hne2 : record.request_hash ≠ ReqHash.createH req := hne
      rw [if_pos hne2]
  | update cid req key =>
    rw [show Cmd.key (Cmd.update cid req key) = key from rfl] at hid
    constructor
    · intro heq
      show update_checkout cat s cid req key n = _
      unfold update_checkout
      rw [hid]
      dsimp only
      rw [if_neg (fun hne => hne heq)]
    · intro hne
      refine ⟨IdempotencyConflictError
        "Idempotency key reused with different parameters", ?_, rfl, rfl⟩
      show update_checkout cat s cid req key n = _
      unfold update_checkout
      rw [hid]
      dsimp only
      have hne2 : record.request_hash ≠ ReqHash.updateH req := hne
      rw [if_pos hne2]
  | complete cid p r a key =>
    rw [show Cmd.key (Cmd.complete cid p r a key) = key from rfl] at hid
    constructor
    · intro heq
      show complete_checkout cat base_url s cid p r a key n = _
      unfold complete_checkout
      rw [hid]
      dsimp only
      rw [if_neg (fun hne => hne heq)]
    · intro hne
      refine ⟨IdempotencyConflictError
        "Idempotency key reused with different parameters", ?_, rfl, rfl⟩
      show complete_checkout cat base_url s cid p r a key n = _
      unfold complete_checkout
      rw [hid]
      dsimp only
      have hne2 : record.request_hash ≠ ReqHash.completeH p r a := hne
      rw [if_pos hne2]
  | cancel cid key =>
    rw [show Cmd.key (Cmd.cancel cid key) = key from rfl] at hid
    constructor
    · intro heq
      show cancel_checkout s cid key n = _
      unfold cancel_checkout
      rw [hid]
      dsimp only
      rw [if_neg (fun hne => hne heq)]
    · intro hne
      refine ⟨IdempotencyConflictError
        "Idempotency key reused with different parameters", ?_, rfl, rfl⟩
      show cancel_checkout s cid key n = _
      unfold cancel_checkout
      rw [hid]
      dsimp only
      have hne2 : record.request_hash ≠ ReqHash.cancelH := hne
      rw [if_pos hne2]

/-- Witness for C3: a cancel replay returns the cached body unchanged,
and a create under the same key with a different body raises the
conflict. -/
theorem C3_witness :
    (execCmd exCatalog "http://m" exIdemState 0 (Cmd.cancel "c6" "K") =
      .ok (exIdemRecord.response_body, exIdemState, 0)) ∧
    (∃ e, execCmd exCatalog "http://m" exIdemState 0
        (Cmd.create exCreateReq "K") = .error e ∧
      e.code = "IDEMPOTENCY_CONFLICT" ∧ e.status = 409) :=
  ⟨(C3_idempotency_guard exCatalog "http://m" exIdemState 0
      (Cmd.cancel "c6" "K") exIdemRecord rfl).1 rfl,
   (C3_idempotency_guard exCatalog "http://m" exIdemState 0
      (Cmd.create exCreateReq "K") exIdemRecord rfl).2 (by decide)⟩

/-- C4: a stored session in a terminal state (`completed` or `canceled`)
rejects every mutating command that is not short-circuited by an
idempotency replay — update, complete and cancel all raise
`CHECKOUT_NOT_MODIFIABLE` with status 409, and (the command failing) the
stores are left unchanged. -/
theorem C4_terminal_state_immutable :
    ∀ (cat : Catalog) (base_url : String) (s : TransState) (n : Nat)
      (cid : String) (c : Checkout),
      lookupAssoc s.checkouts cid = some c →
      (c.status = .completed ∨ c.status = .canceled) →
      ∀ cmd : Cmd,
        ((∃ req key, cmd = Cmd.update cid req key) ∨
         (∃ p r a key, cmd = Cmd.complete cid p r a key) ∨
         (∃ key, cmd = Cmd.cancel cid key)) →
        lookupAssoc s.idempotency cmd.key = none →
        ∃ e, execCmd cat base_url s n cmd = .error e ∧
          e.code = "CHECKOUT_NOT_MODIFIABLE" ∧ e.status = 409 := by
  intro cat base_url s n cid c hc hterm cmd hshape hid
  have hens : ∀ action, _ensure_modifiable c action =
      .error (CheckoutNotModifiableError
        ("Cannot " ++ action ++ " checkout")) := by
    intro action
    unfold _ensure_modifiable
    rw [if_pos hterm]
  rcases hshape with ⟨req, key, rfl⟩ | ⟨p, r, a, key, rfl⟩ | ⟨key, rfl⟩
  · rw [show Cmd.key (Cmd.update cid req key) = key from rfl] at hid
    refine ⟨CheckoutNotModifiableError ("Cannot " ++ "update" ++ " checkout"),
      ?_, rfl, rfl⟩
    show update_checkout cat s cid req key n = _
    unfold update_checkout
    rw [hid]
    dsimp only
    rw [hc]
    dsimp only
    rw [hens "update"]
  · rw [show Cmd.key (Cmd.complete cid p r a key) = key from rfl] at hid
    refine ⟨CheckoutNotModifiableError ("Cannot " ++ "complete" ++ " checkout"),
      ?_, rfl, rfl⟩
    show complete_checkout cat base_url s cid p r a key n = _
    unfold complete_checkout
    rw [hid]
    dsimp only
    rw [hc]
    dsimp only
    rw [hens "complete"]
  · rw [show Cmd.key (Cmd.cancel cid key) = key from rfl] at hid
    refine ⟨CheckoutNotModifiableError ("Cannot " ++ "cancel" ++ " checkout"),
      ?_, rfl, rfl⟩
    show cancel_checkout s cid key n = _
    unfold cancel_checkout
    rw [hid]
    dsimp only
    rw [hc]
    dsimp only
    rw [hens "cancel"]

/-- Witness for C4: update, complete and cancel on the stored completed
session each raise the error. -/
theorem C4_witness :
    (∃ e, execCmd exCatalog "http://m" exTerminalState 0
        (Cmd.update "done" exUpdateReq "F1") = .error e ∧
      e.code = "CHECKOUT_NOT_MODIFIABLE" ∧ e.status = 409) ∧
    (∃ e, execCmd exCatalog "http://m" exTerminalState 0
        (Cmd.complete "done" exPayment "r" none "F2") = .error e ∧
      e.code = "CHECKOUT_NOT_MODIFIABLE" ∧ e.status = 409) ∧
    (∃ e, execCmd exCatalog "http://m" exTerminalState 0
        (Cmd.cancel "gone" "F3") = .error e ∧
      e.code = "CHECKOUT_NOT_MODIFIABLE" ∧ e.status = 409) :=
  ⟨C4_terminal_state_immutable exCatalog "http://m" exTerminalState 0
      "done" _ rfl (Or.inl rfl) _ (Or.inl ⟨exUpdateReq, "F1", rfl⟩) rfl,
   C4_terminal_state_immutable exCatalog "http://m" exTerminalState 0
      "done" _ rfl (Or.inl rfl) _
      (Or.inr (Or.inl ⟨exPayment, "r", none, "F2", rfl⟩)) rfl,
   C4_terminal_state_immutable exCatalog "http://m" exTerminalState 0
      "gone" _ rfl (Or.inr rfl) _ (Or.inr (Or.inr ⟨"F3", rfl⟩)) rfl⟩

theorem sameStores_refl (s : TransState) : sameStores s s :=
  ⟨rfl, rfl, rfl, rfl⟩

theorem sameStores_trans {s1 s2 s3 : TransState}
    (h1 : sameStores s1 s2) (h2 : sameStores s2 s3) : sameStores s1 s3 :=
  ⟨h1.1.trans h2.1, h1.2.1.trans h2.2.1, h1.2.2.1.trans h2.2.2.1,
    h1.2.2.2.trans h2.2.2.2⟩

theorem save_customer_address_sameStores (s : TransState) (email : String)
    (address : ShippingDestinationRequest) (n : Nat) :
    sameStores (save_customer_address s email address n).2.1 s := by
  unfold save_customer_address
  dsimp only
  repeat' split
  all_goals exact ⟨rfl, rfl, rfl, rfl⟩

theorem mergeDestinations_sameStores (existing : Checkout) :
    ∀ (ds : List ShippingDestinationRequest) (s : TransState) (n : Nat),
    sameStores (mergeDestinations existing ds s n).2.1 s := by
  intro ds
  induction ds with
  | nil => intro s n; exact sameStores_refl s
  | cons d rest ih =>
    intro s n
    unfold mergeDestinations
    dsimp only
    split
    · exact sameStores_trans (ih _ _) (save_customer_address_sameStores _ _ _ _)
    · exact ih s n

theorem mergeMethodDestinations_sameStores (existing : Checkout)
    (customer_addresses : List CustomerAddress)
    (existing_method : Option FulfillmentMethodResponse)
    (m_req : FulfillmentMethodRequest) (s : TransState) (n : Nat) :
    sameStores
      (mergeMethodDestinations existing customer_addresses existing_method
        m_req s n).2.1 s := by
  unfold mergeMethodDestinations
  repeat' split
  all_goals first
    | exact sameStores_refl s
    | exact mergeDestinations_sameStores existing m_req.destinations s n

theorem mergeMethodReq_sameStores (existing : Checkout)
    (customer_addresses : List CustomerAddress)
    (m_req : FulfillmentMethodRequest) (s : TransState) (n : Nat) :
    sameStores
      (mergeMethodReq existing customer_addresses m_req s n).2.1 s :=
  mergeMethodDestinations_sameStores existing customer_addresses _ m_req s _

theorem mergeMethods_sameStores (existing : Checkout)
    (customer_addresses : List CustomerAddress) :
    ∀ (ms : List FulfillmentMethodRequest) (s : TransState) (n : Nat),
    sameStores
      (mergeMethods existing customer_addresses ms s n).2.1 s := by
  intro ms
  induction ms with
  | nil => intro s n; exact sameStores_refl s
  | cons m rest ih =>
    intro s n
    unfold mergeMethods
    dsimp only
    exact sameStores_trans (ih _ _)
      (mergeMethodReq_sameStores existing customer_addresses m s n)

theorem applyFulfillmentUpdate_sameStores (s : TransState) (c : Checkout)
    (ful : Option (List FulfillmentMethodRequest)) (n : Nat) :
    sameStores (applyFulfillmentUpdate s c ful n).2.1 s := by
  cases ful with
  | none => exact sameStores_refl s
  | some mrs => exact mergeMethods_sameStores _ _ _ _ _

theorem applyFulfillmentUpdate_preserves (s : TransState) (c : Checkout)
    (ful : Option (List FulfillmentMethodRequest)) (n : Nat) :
    (applyFulfillmentUpdate s c ful n).1.status = c.status ∧
      (applyFulfillmentUpdate s c ful n).1.id = c.id := by
  cases ful with
  | none => exact ⟨rfl, rfl⟩
  | some mrs => exact ⟨rfl, rfl⟩

theorem applyUpdateRequest_sameStores (s : TransState) (stored : Checkout)
    (req : UnifiedCheckoutUpdateRequest) (n : Nat) :
    sameStores (applyUpdateRequest s stored req n).2.1 s :=
  applyFulfillmentUpdate_sameStores s _ req.fulfillment _

theorem applyUpdateRequest_preserves (s : TransState) (stored : Checkout)
    (req : UnifiedCheckoutUpdateRequest) (n : Nat) :
    (applyUpdateRequest s stored req n).1.status = stored.status ∧
      (applyUpdateRequest s stored req n).1.id = stored.id := by
  unfold applyUpdateRequest
  dsimp only
  constructor
  · repeat' split
    all_goals rw [(applyFulfillmentUpdate_preserves _ _ _ _).1]
  · repeat' split
    all_goals rw [(applyFulfillmentUpdate_preserves _ _ _ _).2]

theorem goodState_setAssoc {l : List (String × Checkout)}
    (hl : ∀ p ∈ l, goodStatus p.2) {k : String} {v : Checkout}
    (hv : goodStatus v) :
    ∀ p ∈ setAssoc l k v, goodStatus p.2 :=
  fun p hp => (mem_setAssoc hp).elim (fun h => h.symm ▸ hv) (hl p)

theorem lookupAssoc_mem {α : Type} {l : List (String × α)} {k : String}
    {v : α} (h : lookupAssoc l k = some v) : ∃ p ∈ l, p.2 = v := by
  unfold lookupAssoc at h
  cases hf : l.find? (fun p => p.1 == k) with
  | none => rw [hf] at h; cases h
  | some q =>
    rw [hf] at h
    exact ⟨q, List.mem_of_find?_eq_some hf, Option.some.inj h⟩

set_option maxHeartbeats 1000000 in
/-- C10: every checkout status written to the store is one of
`ready_for_complete`, `completed`, `canceled`: any command run on a store
satisfying this keeps it (so `incomplete`, `requires_escalation` and
`complete_in_progress` are never persisted); a fresh create always stores
`ready_for_complete`, and a fresh update preserves the stored status. -/
theorem C10_persisted_status_invariant :
    (∀ (cat : Catalog) (base_url : String) (s : TransState) (n : Nat)
       (cmd : Cmd) (out : Checkout × TransState × Nat),
       goodState s → execCmd cat base_url s n cmd = .ok out →
       goodState out.2.1) ∧
    (∀ (cat : Catalog) (s : TransState)
       (req : UnifiedCheckoutCreateRequest) (key : String) (n : Nat)
       (out : Checkout × TransState × Nat),
       lookupAssoc s.idempotency key = none →
       create_checkout cat s req key n = .ok out →
       out.1.status = .readyForComplete ∧
         lookupAssoc out.2.1.checkouts out.1.id = some out.1) ∧
    (∀ (cat : Catalog) (s : TransState) (cid : String)
       (req : UnifiedCheckoutUpdateRequest) (key : String) (n : Nat)
       (out : Checkout × TransState × Nat) (c : Checkout),
       lookupAssoc s.idempotency key = none →
       lookupAssoc s.checkouts cid = some c →
       update_checkout cat s cid req key n = .ok out →
       out.1.status = c.status) := by
  refine ⟨?_, ?_, ?_⟩
  · intro cat base_url s n cmd out hg h
    cases cmd with
    | create req key =>
      unfold execCmd create_checkout at h
      dsimp only at h
      cases hid : lookupAssoc s.idempotency key with
      | some record =>
        rw [hid] at h
        dsimp only at h
        split at h
        · cases h
        · simp only [Except.ok.injEq] at h
          subst h
          exact hg
      | none =>
        rw [hid] at h
        dsimp only at h
        split at h
        · cases h
        · rename_i checkout1 n1 hr
          split at h
          · cases h
          · simp only [Except.ok.injEq] at h
            subst h
            exact goodState_setAssoc hg (Or.inl rfl)
    | update cid req key =>
      unfold execCmd update_checkout at h
      dsimp only at h
      cases hid : lookupAssoc s.idempotency key with
      | some record =>
        rw [hid] at h
        dsimp only at h
        split at h
        · cases h
        · simp only [Except.ok.injEq] at h
          subst h
          exact hg
      | none =>
        rw [hid] at h
        dsimp only at h
        split at h
        · cases h
        · rename_i stored hstored
          split at h
          · cases h
          · rename_i u hmod
            split at h
            · cases h
            · rename_i updated n1 hr
              split at h
              · cases h
              · simp only [Except.ok.injEq] at h
                subst h
                have hsame := applyUpdateRequest_sameStores s stored req n
                have hpre := applyUpdateRequest_preserves s stored req n
                have hstat := recalc_preserves_status _ _ _ _ _ hr
                intro p hp
                have hp2 : p ∈ setAssoc
                    ((applyUpdateRequest s stored req n).2.1.checkouts)
                    cid updated := hp
                rw [hsame.2.1] at hp2
                refine goodState_setAssoc hg ?_ p hp2
                obtain ⟨p0, hp0, hp0v⟩ := lookupAssoc_mem hstored
                have hgood := hg p0 hp0
                unfold goodStatus at hgood ⊢
                rw [hstat.1, hpre.1, ← hp0v]
                exact hgood
    | complete cid p r a key =>
      unfold execCmd complete_checkout at h
      dsimp only at h
      cases hid : lookupAssoc s.idempotency key with
      | some record =>
        rw [hid] at h
        dsimp only at h
        split at h
        · cases h
        · simp only [Except.ok.injEq] at h
          subst h
          exact hg
      | none =>
        rw [hid] at h
        dsimp only at h
        split at h
        · cases h
        · rename_i checkout hstored
          split at h
          · cases h
          · rename_i u hmod
            split at h
            · cases h
            · rename_i u2 hpay
              split at h
              · cases h
              · split at h
                · cases h
                · rename_i inv2 hres
                  simp only [Except.ok.injEq] at h
                  subst h
                  exact goodState_setAssoc hg (Or.inr (Or.inl rfl))
    | cancel cid key =>
      unfold execCmd cancel_checkout at h
      dsimp only at h
      cases hid : lookupAssoc s.idempotency key with
      | some record =>
        rw [hid] at h
        dsimp only at h
        split at h
        · cases h
        · simp only [Except.ok.injEq] at h
          subst h
          exact hg
      | none =>
        rw [hid] at h
        dsimp only at h
        split at h
        · cases h
        · rename_i checkout hstored
          split at h
          · cases h
          · rename_i u hmod
            simp only [Except.ok.injEq] at h
            subst h
            exact goodState_setAssoc hg (Or.inr (Or.inr rfl))
  · intro cat s req key n out hid h
    unfold create_checkout at h
    rw [hid] at h
    dsimp only at h
    split at h
    · cases h
    · rename_i checkout1 n1 hr
      split at h
      · cases h
      · simp only [Except.ok.injEq] at h
        subst h
        exact ⟨rfl, lookupAssoc_setAssoc_self _ _ _⟩
  · intro cat s cid req key n out c hid hc h
    unfold update_checkout at h
    rw [hid] at h
    dsimp only at h
    rw [hc] at h
    dsimp only at h
    split at h
    · cases h
    · split at h
      · cases h
      · rename_i updated n1 hr
        split at h
        · cases h
        · simp only [Except.ok.injEq] at h
          subst h
          have hpre := applyUpdateRequest_preserves s c req n
          have hstat := recalc_preserves_status _ _ _ _ _ hr
          show updated.status = c.status
          rw [hstat.1, hpre.1]

/-- Witness for C10: the example create persists `ready_for_complete`
into a previously empty (hence good) store, and the example update
preserves the stored status. -/
theorem C10_witness :
    goodState exCreateOutput.2.1 ∧
    (exCreateOutput.1.status = CheckoutStatus.readyForComplete ∧
      lookupAssoc exCreateOutput.2.1.checkouts exCreateOutput.1.id =
        some exCreateOutput.1) ∧
    exUpdateOutput.1.status = exStoredSession.status :=
  ⟨C10_persisted_status_invariant.1 exCatalog "http://m" exState 0
      (Cmd.create exCreateReq "K1") exCreateOutput
      (fun p hp => absurd hp (by simp [exState])) rfl,
   C10_persisted_status_invariant.2.1 exCatalog exState exCreateReq "K1" 0
      exCreateOutput rfl rfl,
   C10_persisted_status_invariant.2.2 exCatalog exCreateOutput.2.1
      exCreateOutput.1.id exUpdateReq "K2" exCreateOutput.2.2
      exUpdateOutput exStoredSession rfl rfl rfl⟩

/-- C5 (amended): recomputation runs on every create and update but NOT
at the start of complete — a successful complete returns (and stores) the
session with exactly the totals and line items persisted by the last
create or update, so they need not reflect current catalog prices. -/
theorem C5_complete_returns_stored_totals :
    ∀ (cat : Catalog) (base_url : String) (s : TransState) (cid : String)
      (payment : PaymentCreateRequest) (risk : String) (ap2 : Option String)
      (key : String) (n : Nat) (out : Checkout × TransState × Nat)
      (c : Checkout),
      lookupAssoc s.idempotency key = none →
      lookupAssoc s.checkouts cid = some c →
      complete_checkout cat base_url s cid payment risk ap2 key n =
        .ok out →
      out.1.totals = c.totals ∧ out.1.line_items = c.line_items := by
  intro cat base_url s cid payment risk ap2 key n out c hid hc h
  unfold complete_checkout at h
  rw [hid] at h
  dsimp only at h
  rw [hc] at h
  dsimp only at h
  split at h
  · cases h
  · split at h
    · cases h
    · split at h
      · cases h
      · split at h
        · cases h
        · simp only [Except.ok.injEq] at h
          subst h
          exact ⟨rfl, rfl⟩

/-- Counterexample to C5 as stated: after the catalog price of the rose
doubles, complete still succeeds and returns the stale stored totals,
which differ from what recomputation against the current catalog would
produce. -/
theorem C5_counterexample :
    exStaleCompleteOutput.1.status = CheckoutStatus.completed ∧
    exStaleCompleteOutput.1.totals = exStoredSession.totals ∧
    (_recalculate_totals exNewCatalog exStoredSession
        exCreateOutput.2.2).toOption.map (fun r => r.1.totals) ≠
      some exStaleCompleteOutput.1.totals := by
  refine ⟨rfl, rfl, ?_⟩
  decide

/-- Witness for C5 at the concrete stale-catalog completion. -/
theorem C5_witness :
    exStaleCompleteOutput.1.totals = exStoredSession.totals ∧
      exStaleCompleteOutput.1.line_items = exStoredSession.line_items :=
  C5_complete_returns_stored_totals exNewCatalog "http://m"
    exCreateOutput.2.1 exCreateOutput.1.id exPayment "risk" none "K3"
    exCreateOutput.2.2 exStaleCompleteOutput exStoredSession rfl rfl rfl

/-- C6 (amended): complete validates fulfillment with a weaker condition
than claimed — it succeeds exactly when some method that is either not of
type `shipping` or has a (truthy) selected destination carries a group
with a (truthy) selected option; a shipping destination is NOT required
when a non-shipping method has a selected option.  When no such method
exists (and payment succeeded on a modifiable session), complete raises
`INVALID_REQUEST`. -/
theorem C6_complete_validation :
    (∀ c : Checkout, fulfillmentValid c = true ↔
      ∃ ms, c.fulfillment = some ms ∧ ∃ m ∈ ms,
        (m.type ≠ "shipping" ∨
          pyStrTruthy m.selected_destination_id = true) ∧
        ∃ g ∈ m.groups, pyStrTruthy g.selected_option_id = true) ∧
    (∀ (cat : Catalog) (base_url : String) (s : TransState) (cid : String)
       (payment : PaymentCreateRequest) (risk : String) (ap2 : Option String)
       (key : String) (n : Nat) (out : Checkout × TransState × Nat)
       (c : Checkout),
      lookupAssoc s.idempotency key = none →
      lookupAssoc s.checkouts cid = some c →
      complete_checkout cat base_url s cid payment risk ap2 key n =
        .ok out →
      fulfillmentValid c = true) ∧
    (∀ (cat : Catalog) (base_url : String) (s : TransState) (cid : String)
       (payment : PaymentCreateRequest) (risk : String) (ap2 : Option String)
       (key : String) (n : Nat) (c : Checkout),
      lookupAssoc s.idempotency key = none →
      lookupAssoc s.checkouts cid = some c →
      _ensure_modifiable c "complete" = .ok () →
      _process_payment payment = .ok () →
      fulfillmentValid c = false →
      complete_checkout cat base_url s cid payment risk ap2 key n =
        .error (InvalidRequestError
          "Fulfillment address and option must be selected before completion.")) := by
  refine ⟨?_, ?_, ?_⟩
  · intro c
    unfold fulfillmentValid
    cases hf : c.fulfillment with
    | none => simp
    | some ms =>
      rw [List.any_eq_true]
      constructor
      · rintro ⟨m, hm, hcond⟩
        rw [Bool.and_eq_true, List.any_eq_true] at hcond
        obtain ⟨h1, g, hg, hgsel⟩ := hcond
        refine ⟨ms, rfl, m, hm, ?_, g, hg, hgsel⟩
        by_cases ht : m.type = "shipping"
        · cases hsel : pyStrTruthy m.selected_destination_id with
          | false => exact absurd h1 (by simp [ht, hsel])
          | true => exact Or.inr rfl
        · exact Or.inl ht
      · rintro ⟨ms2, hms2, m, hm, hcond, g, hg, hgsel⟩
        have hmm : ms2 = ms := (Option.some.inj hms2).symm
        subst hmm
        refine ⟨m, hm, ?_⟩
        rw [Bool.and_eq_true, List.any_eq_true]
        refine ⟨?_, g, hg, hgsel⟩
        rcases hcond with ht | hsel
        · have hb : (m.type == "shipping") = false :=
            beq_eq_false_iff_ne.mpr ht
          simp [hb]
        · simp [hsel]
  · intro cat base_url s cid payment risk ap2 key n out c hid hc h
    unfold complete_checkout at h
    rw [hid] at h
    dsimp only at h
    rw [hc] at h
    dsimp only at h
    split at h
    · cases h
    · split at h
      · cases h
      · split at h
        · cases h
        · rename_i hvalid
          simpa using hvalid
  · intro cat base_url s cid payment risk ap2 key n c hid hc hens hpay
      hvalid
    unfold complete_checkout
    rw [hid]
    dsimp only
    rw [hc]
    dsimp only
    rw [hens]
    dsimp only
    rw [hpay]
    dsimp only
    rw [hvalid]
    rfl

/-- Counterexample to C6 as stated: a session whose only fulfillment
method is `digital` (no shipping destination selected anywhere) completes
successfully although the claimed shipping precondition is false. -/
theorem C6_counterexample :
    (complete_checkout exCatalog "http://m" exDigitalState "c6" exPayment
        "r" none "K" 0).toOption.map (fun r => r.1.status) =
      some CheckoutStatus.completed ∧
    specCompleteRequirement exDigitalSession = false :=
  ⟨rfl, rfl⟩

/-- Witness for C6: the digital session validates, and the
selection-free session is rejected with `INVALID_REQUEST`. -/
theorem C6_witness :
    fulfillmentValid exDigitalSession = true ∧
    (complete_checkout exCatalog "http://m" exInvalidState "cm" exPayment
        "r" none "K" 0 =
      .error (InvalidRequestError
        "Fulfillment address and option must be selected before completion.")) :=
  ⟨C6_complete_validation.2.1 exCatalog "http://m" exDigitalState "c6"
      exPayment "r" none "K" 0 exDigitalCompleteOutput exDigitalSession
      rfl rfl rfl,
   C6_complete_validation.2.2 exCatalog "http://m" exInvalidState "cm"
      exPayment "r" none "K" 0 exMissingSession rfl rfl rfl rfl rfl⟩

theorem lookupAssoc_cons {α : Type} (p : String × α)
    (rest : List (String × α)) (k : String) :
    lookupAssoc (p :: rest) k =
      if p.1 == k then some p.2 else lookupAssoc rest k := by
  unfold lookupAssoc
  by_cases hp : (p.1 == k) = true
  · rw [if_pos hp, List.find?_cons_of_pos rest
      (show (fun q : String × α => q.1 == k) p = true from hp)]
    rfl
  · rw [if_neg hp, List.find?_cons_of_neg rest
      (show ¬((fun q : String × α => q.1 == k) p = true) from hp)]

theorem map_self {α : Type} : ∀ (l : List α) (f : α → α),
    (∀ a ∈ l, f a = a) → l.map f = l := by
  intro l f h
  induction l with
  | nil => rfl
  | cons x xs ih =>
    rw [List.map_cons, h x (List.mem_cons_self x xs),
      ih (fun a ha => h a (List.mem_cons_of_mem x ha))]

theorem reserveLines_error_spec (cat : Catalog) :
    ∀ (ls : List LineItemResponse) (inv : List (String × Int)) (e : UcpErr),
    reserveLines cat ls inv = .error e →
    e.code = "OUT_OF_STOCK" ∧ e.status = 409 := by
  intro ls
  induction ls with
  | nil =>
    intro inv e h
    cases h
  | cons line rest ih =>
    intro inv e h
    unfold reserveLines at h
    split at h
    · dsimp only at h
      split at h
      · exact ih _ e h
      · simp only [Except.error.injEq] at h
        subst h
        exact ⟨rfl, rfl⟩
    · exact ih _ e h

theorem reserve_hit_of_lookup {inventory : List (String × Int)}
    {pid : String} {qty q : Int}
    (hq : lookupAssoc inventory pid = some q) (hle : qty ≤ q) :
    (reserve_stock inventory pid qty).1 = true := by
  induction inventory with
  | nil => cases hq
  | cons p rest ih =>
    rw [lookupAssoc_cons] at hq
    unfold reserve_stock
    dsimp only
    simp only [List.any_cons, Bool.or_eq_true]
    by_cases hp : (p.1 == pid) = true
    · rw [if_pos hp] at hq
      have hqv : p.2 = q := Option.some.inj hq
      left
      rw [Bool.and_eq_true]
      exact ⟨hp, decide_eq_true (by rw [hqv]; exact hle)⟩
    · rw [if_neg hp] at hq
      right
      exact ih hq

theorem reserve_miss_unchanged (inventory : List (String × Int))
    (pid : String) (qty : Int)
    (h : (reserve_stock inventory pid qty).1 = false) :
    (reserve_stock inventory pid qty).2 = inventory := by
  unfold reserve_stock at h ⊢
  simp only [List.any_eq_false] at h
  dsimp only
  exact map_self inventory _ (fun p hp => if_neg (h p hp))

theorem reserve_decrements {inventory : List (String × Int)}
    {pid : String} {qty q : Int}
    (hq : lookupAssoc inventory pid = some q) (hle : qty ≤ q) :
    lookupAssoc (reserve_stock inventory pid qty).2 pid = some (q - qty) := by
  induction inventory with
  | nil => cases hq
  | cons p rest ih =>
    rw [lookupAssoc_cons] at hq
    unfold reserve_stock
    dsimp only
    simp only [List.map_cons]
    by_cases hp : (p.1 == pid) = true
    · rw [if_pos hp] at hq
      have hqv : p.2 = q := Option.some.inj hq
      rw [if_pos (show (p.1 == pid && decide (qty ≤ p.2)) = true by
        rw [Bool.and_eq_true]
        exact ⟨hp, decide_eq_true (by rw [hqv]; exact hle)⟩)]
      rw [lookupAssoc_cons]
      rw [if_pos (show ((p.1, p.2 - qty).1 == pid) = true from hp)]
      dsimp only
      rw [hqv]
    · rw [if_neg hp] at hq
      have hrec := ih hq
      rw [if_neg (show ¬((p.1 == pid && decide (qty ≤ p.2)) = true) from
        fun hcc => hp ((Bool.and_eq_true _ _).mp hcc).1)]
      rw [lookupAssoc_cons, if_neg hp]
      exact hrec

theorem reserve_other_keys (inventory : List (String × Int))
    (pid : String) (qty : Int) (pid' : String) (hne : pid' ≠ pid) :
    lookupAssoc (reserve_stock inventory pid qty).2 pid' =
      lookupAssoc inventory pid' := by
  induction inventory with
  | nil => rfl
  | cons p rest ih =>
    unfold reserve_stock at ih ⊢
    dsimp only at ih ⊢
    simp only [List.map_cons]
    by_cases hc : (p.1 == pid && decide (qty ≤ p.2)) = true
    · have h1 : p.1 = pid := eq_of_beq ((Bool.and_eq_true _ _).mp hc).1
      have hpp : (p.1 == pid') = false := by
        rw [h1]
        exact beq_eq_false_iff_ne.mpr (fun he => hne he.symm)
      rw [if_pos hc, lookupAssoc_cons, lookupAssoc_cons]
      rw [if_neg (show ¬(((p.1, p.2 - qty).1 == pid') = true) by
        rw [show ((p.1, p.2 - qty).1 == pid') = (p.1 == pid') from rfl, hpp]
        simp)]
      rw [if_neg (show ¬((p.1 == pid') = true) by rw [hpp]; simp)]
      exact ih
    · rw [if_neg hc, lookupAssoc_cons, lookupAssoc_cons]
      by_cases hpp : (p.1 == pid') = true
      · rw [if_pos hpp, if_pos hpp]
      · rw [if_neg hpp, if_neg hpp]
        exact ih

theorem reserve_hit_lookup {inventory : List (String × Int)}
    {pid : String} {qty : Int}
    (hnd : (inventory.map Prod.fst).Nodup)
    (hhit : (reserve_stock inventory pid qty).1 = true) :
    ∃ q, lookupAssoc inventory pid = some q ∧ qty ≤ q := by
  induction inventory with
  | nil => cases hhit
  | cons p rest ih =>
    rw [List.map_cons, List.nodup_cons] at hnd
    unfold reserve_stock at hhit
    dsimp only at hhit
    simp only [List.any_cons, Bool.or_eq_true, Bool.and_eq_true,
      decide_eq_true_eq] at hhit
    by_cases hp : (p.1 == pid) = true
    · refine ⟨p.2, ?_, ?_⟩
      · rw [lookupAssoc_cons, if_pos hp]
      · rcases hhit with ⟨-, hle⟩ | hrest
        · exact hle
        · exfalso
          have hmem : pid ∈ rest.map Prod.fst := by
            rw [List.any_eq_true] at hrest
            obtain ⟨p2, hp2, hcond⟩ := hrest
            rw [Bool.and_eq_true] at hcond
            have h2 : p2.1 = pid := eq_of_beq hcond.1
            exact h2 ▸ List.mem_map_of_mem Prod.fst hp2
          refine hnd.1 ?_
          rw [show Prod.fst p = pid from eq_of_beq hp]
          exact hmem
    · rcases hhit with ⟨habs, -⟩ | hrest
      · exact absurd habs hp
      · obtain ⟨q, hq, hle⟩ := ih hnd.2 hrest
        refine ⟨q, ?_, hle⟩
        rw [lookupAssoc_cons, if_neg hp]
        exact hq

set_option maxHeartbeats 1000000 in
/-- C7: atomic reserve decrements the stored quantity exactly when the
stored quantity covers the request, returning whether the decrement took
effect (other products are untouched; a failed reserve leaves the
inventory unchanged); during complete, the reservation loop runs over the
session's line items and its first failure surfaces as `OUT_OF_STOCK`
with status 409, aborting the transaction (no state is committed), while
a successful complete commits exactly the sequentially reserved
inventory. -/
theorem C7_atomic_reserve :
    (∀ (inventory : List (String × Int)) (pid : String) (qty : Int),
      ((inventory.map Prod.fst).Nodup →
        ((reserve_stock inventory pid qty).1 = true ↔
          ∃ q, lookupAssoc inventory pid = some q ∧ qty ≤ q)) ∧
      ((reserve_stock inventory pid qty).1 = false →
        (reserve_stock inventory pid qty).2 = inventory) ∧
      (∀ q, lookupAssoc inventory pid = some q → qty ≤ q →
        lookupAssoc (reserve_stock inventory pid qty).2 pid =
          some (q - qty)) ∧
      (∀ pid', pid' ≠ pid →
        lookupAssoc (reserve_stock inventory pid qty).2 pid' =
          lookupAssoc inventory pid')) ∧
    (∀ (cat : Catalog) (base_url : String) (s : TransState) (cid : String)
       (payment : PaymentCreateRequest) (risk : String) (ap2 : Option String)
       (key : String) (n : Nat) (c : Checkout),
      lookupAssoc s.idempotency key = none →
      lookupAssoc s.checkouts cid = some c →
      _ensure_modifiable c "complete" = .ok () →
      _process_payment payment = .ok () →
      fulfillmentValid c = true →
      (∀ e, reserveLines cat c.line_items s.inventory = .error e →
        complete_checkout cat base_url s cid payment risk ap2 key n =
            .error e ∧
          e.code = "OUT_OF_STOCK" ∧ e.status = 409) ∧
      (∀ out,
        complete_checkout cat base_url s cid payment risk ap2 key n =
          .ok out →
        reserveLines cat c.line_items s.inventory =
          .ok out.2.1.inventory)) := by
  constructor
  · intro inventory pid qty
    refine ⟨fun hnd => ⟨fun h => reserve_hit_lookup hnd h,
        fun ⟨q, hq, hle⟩ => reserve_hit_of_lookup hq hle⟩,
      reserve_miss_unchanged inventory pid qty,
      fun q hq hle => reserve_decrements hq hle,
      fun pid' hne => reserve_other_keys inventory pid qty pid' hne⟩
  · intro cat base_url s cid payment risk ap2 key n c hid hc hens hpay
      hvalid
    constructor
    · intro e he
      refine ⟨?_, reserveLines_error_spec cat c.line_items s.inventory e he⟩
      unfold complete_checkout
      rw [hid]
      dsimp only
      rw [hc]
      dsimp only
      rw [hens]
      dsimp only
      rw [hpay]
      dsimp only
      rw [hvalid]
      rw [if_neg (show ¬((!true) = true) by simp)]
      rw [he]
    · intro out hout
      unfold complete_checkout at hout
      rw [hid] at hout
      dsimp only at hout
      rw [hc] at hout
      dsimp only at hout
      rw [hens] at hout
      dsimp only at hout
      rw [hpay] at hout
      dsimp only at hout
      rw [hvalid] at hout
      rw [if_neg (show ¬((!true) = true) by simp)] at hout
      cases hres : reserveLines cat c.line_items s.inventory with
      | error e2 =>
        rw [hres] at hout
        cases hout
      | ok inventory2 =>
        rw [hres] at hout
        dsimp only at hout
        simp only [Except.ok.injEq] at hout
        rw [← hout]

/-- Witness for C7 at a singleton inventory and the digital session: a
covered reserve decrements, an uncovered one fails leaving the store, and
complete surfaces the failure as a 409 `OUT_OF_STOCK`. -/
theorem C7_witness :
    ((reserve_stock [("rose", 5)] "rose" 2).1 = true ↔
      ∃ q, lookupAssoc [("rose", 5)] "rose" = some q ∧ (2:Int) ≤ q) ∧
    ((reserve_stock [("rose", 0)] "rose" 1).1 = false →
      (reserve_stock [("rose", 0)] "rose" 1).2 = [("rose", 0)]) ∧
    (reserveLines exCatalog exDigitalSession.line_items
        exPoorState.inventory =
      .error (OutOfStockError "Item rose is out of stock" 409) →
      complete_checkout exCatalog "http://m" exPoorState "c6" exPayment
          "r" none "K" 0 =
        .error (OutOfStockError "Item rose is out of stock" 409) ∧
      (OutOfStockError "Item rose is out of stock" 409).code =
        "OUT_OF_STOCK" ∧
      (OutOfStockError "Item rose is out of stock" 409).status = 409) ∧
    (complete_checkout exCatalog "http://m" exDigitalState "c6" exPayment
        "r" none "K" 0 = .ok exDigitalCompleteOutput →
      reserveLines exCatalog exDigitalSession.line_items
        exDigitalState.inventory = .ok exDigitalCompleteOutput.2.1.inventory) :=
  ⟨(C7_atomic_reserve.1 [("rose", 5)] "rose" 2).1 (by simp),
   (C7_atomic_reserve.1 [("rose", 0)] "rose" 1).2.1,
   (C7_atomic_reserve.2 exCatalog "http://m" exPoorState "c6" exPayment
      "r" none "K" 0 exDigitalSession rfl rfl rfl rfl rfl).1
      (OutOfStockError "Item rose is out of stock" 409),
   (C7_atomic_reserve.2 exCatalog "http://m" exDigitalState "c6" exPayment
      "r" none "K" 0 exDigitalSession rfl rfl rfl rfl rfl).2
      exDigitalCompleteOutput⟩

theorem mem_insertRate (a r : ShippingRate) :
    ∀ l : List ShippingRate, a ∈ insertRate r l ↔ a = r ∨ a ∈ l := by
  intro l
  induction l with
  | nil => simp [insertRate]
  | cons x xs ih =>
    unfold insertRate
    split
    · simp only [List.mem_cons]
    · simp only [List.mem_cons, ih]
      tauto

theorem mem_sortRatesByPrice (a : ShippingRate) :
    ∀ l : List ShippingRate, a ∈ sortRatesByPrice l ↔ a ∈ l := by
  intro l
  induction l with
  | nil => simp [sortRatesByPrice]
  | cons x xs ih =>
    unfold sortRatesByPrice
    rw [mem_insertRate, ih, List.mem_cons]

set_option maxHeartbeats 1000000 in
/-- C8 (amended): the evaluator marks an order free-shipping eligible
exactly when some promotion of type `free_shipping` either carries a
non-`None`, non-zero `min_subtotal` that is at most the subtotal, or
carries a non-empty `eligible_item_ids` list containing one of the
order's product ids — a promotion of any other type never grants free
shipping, and a `min_subtotal` of `0` or `None` never satisfies the
threshold branch; every produced option is the materialisation of one
deduplicated rate under that eligibility flag, and materialisation
zero-prices a rate and suffixes its title with " (Free)" exactly when
the flag is set and the rate's service level is `standard`, keeping the
rate's price otherwise. -/
theorem C8_free_shipping_evaluation :
    (∀ (promotions : List Promotion) (subtotal : Int) (ids : List String),
      isFreeShipping promotions subtotal ids = true ↔
        ∃ p ∈ promotions, p.type = "free_shipping" ∧
          ((∃ m, p.min_subtotal = some m ∧ m ≠ 0 ∧ m ≤ subtotal) ∨
            (p.eligible_item_ids ≠ [] ∧
              ∃ i ∈ ids, i ∈ p.eligible_item_ids))) ∧
    (∀ (cat : Catalog) (address : PostalAddress)
       (promotions : List Promotion) (subtotal : Int) (ids : List String)
       (opt : FulfillmentOptionResponse),
      opt ∈ calculate_options cat address promotions subtotal ids →
      ∃ country, address.address_country = some country ∧
        country.isEmpty = false ∧
        ∃ rate, rate ∈ (bucketRates (get_shipping_rates cat country)).map
            Prod.snd ∧
          opt = materialiseRate (isFreeShipping promotions subtotal ids)
            rate) ∧
    (∀ (free : Bool) (rate : ShippingRate),
      (free = true → rate.service_level = "standard" →
        materialiseRate free rate =
          { id := rate.id, title := rate.title ++ " (Free)",
            totals := [⟨"subtotal", 0⟩, ⟨"total", 0⟩] }) ∧
      (free = false ∨ rate.service_level ≠ "standard" →
        materialiseRate free rate =
          { id := rate.id, title := rate.title,
            totals := [⟨"subtotal", rate.price⟩,
                       ⟨"total", rate.price⟩] })) := by
  refine ⟨?_, ?_, ?_⟩
  · intro promotions subtotal ids
    unfold isFreeShipping
    rw [List.any_eq_true]
    constructor
    · rintro ⟨p, hp, hcond⟩
      unfold isFreeShippingPromo at hcond
      rw [Bool.and_eq_true] at hcond
      obtain ⟨ht, hrest⟩ := hcond
      refine ⟨p, hp, eq_of_beq ht, ?_⟩
      rw [Bool.or_eq_true] at hrest
      rcases hrest with hmin | helig
      · rw [Bool.and_eq_true, decide_eq_true_eq] at hmin
        obtain ⟨htr, hle⟩ := hmin
        left
        cases hm : p.min_subtotal with
        | none =>
          rw [hm] at htr
          simp [pyIntTruthy] at htr
        | some m =>
          rw [hm] at htr hle
          simp only [pyIntTruthy] at htr
          refine ⟨m, rfl, ?_, by simpa using hle⟩
          intro h0
          rw [h0] at htr
          simp at htr
      · rw [Bool.and_eq_true] at helig
        obtain ⟨hne, hany⟩ := helig
        right
        constructor
        · intro h0
          rw [h0] at hne
          simp at hne
        · rw [List.any_eq_true] at hany
          obtain ⟨i, hi, hci⟩ := hany
          exact ⟨i, hi, List.mem_of_elem_eq_true hci⟩
    · rintro ⟨p, hp, ht, hcond⟩
      refine ⟨p, hp, ?_⟩
      unfold isFreeShippingPromo
      rw [Bool.and_eq_true]
      refine ⟨by rw [ht]; simp, ?_⟩
      rw [Bool.or_eq_true]
      rcases hcond with ⟨m, hm, h0, hle⟩ | ⟨hne, i, hi, hel⟩
      · left
        rw [Bool.and_eq_true]
        constructor
        · simp only [pyIntTruthy, hm]
          simpa using h0
        · rw [hm]
          simpa using hle
      · right
        rw [Bool.and_eq_true]
        constructor
        · cases he : p.eligible_item_ids with
          | nil => exact absurd he hne
          | cons a l => simp [he]
        · rw [List.any_eq_true]
          exact ⟨i, hi, List.elem_eq_true_of_mem hel⟩
  · intro cat address promotions subtotal ids opt hmem
    unfold calculate_options at hmem
    cases hcountry : address.address_country with
    | none =>
      rw [hcountry] at hmem
      cases hmem
    | some country =>
      rw [hcountry] at hmem
      dsimp only at hmem
      by_cases hemp : country.isEmpty = true
      · rw [if_pos hemp] at hmem
        cases hmem
      · rw [if_neg hemp] at hmem
        refine ⟨country, rfl, Bool.eq_false_iff.mpr hemp, ?_⟩
        rw [List.mem_map] at hmem
        obtain ⟨rate, hrate, hopt⟩ := hmem
        exact ⟨rate, (mem_sortRatesByPrice rate _).mp hrate, hopt.symm⟩
  · intro free rate
    constructor
    · intro hf hs
      unfold materialiseRate
      rw [if_pos (show (free && (rate.service_level == "standard")) = true
        by rw [hf, hs]; simp)]
    · intro h
      unfold materialiseRate
      rw [if_neg (show
          ¬((free && (rate.service_level == "standard")) = true) by
        rcases h with hf | hs
        · rw [hf]
          simp
        · intro hc
          rw [Bool.and_eq_true] at hc
          exact hs (eq_of_beq hc.2))]

/-- Counterexample to C8 as stated: a non-`free_shipping` promotion
listing a product id does not grant free shipping (the standard rate
stays at 500), and a `free_shipping` promotion whose `min_subtotal` is 0
never satisfies the threshold branch, although the claim makes both
eligible. -/
theorem C8_counterexample :
    specFreeShippingEligible [exTypedPromo] 0 ["rose"] = true ∧
    isFreeShipping [exTypedPromo] 0 ["rose"] = false ∧
    specFreeShippingEligible [exZeroMinPromo] 1000 [] = true ∧
    isFreeShipping [exZeroMinPromo] 1000 [] = false ∧
    calculate_options exCatalog exAddress [exTypedPromo] 0 ["rose"] =
      [⟨"std-ship", "Standard", [⟨"subtotal", 500⟩, ⟨"total", 500⟩]⟩] :=
  ⟨rfl, rfl, rfl, rfl, rfl⟩

/-- Witness for C8: the standard 500-unit option produced for the US
address traces back to the bucketed standard rate, and materialisation
behaves as characterised on that rate in both the free and non-free
branches. -/
theorem C8_witness :
    (⟨"std-ship", "Standard", [⟨"subtotal", 500⟩, ⟨"total", 500⟩]⟩ :
        FulfillmentOptionResponse) ∈
      calculate_options exCatalog exAddress [] 0 [] ∧
    (∃ country, exAddress.address_country = some country ∧
      country.isEmpty = false ∧
      ∃ rate, rate ∈ (bucketRates (get_shipping_rates exCatalog
          country)).map Prod.snd ∧
        (⟨"std-ship", "Standard", [⟨"subtotal", 500⟩, ⟨"total", 500⟩]⟩ :
            FulfillmentOptionResponse) =
          materialiseRate (isFreeShipping [] 0 []) rate) ∧
    (⟨"std-ship", "US", "standard", 500, "Standard"⟩ :
        ShippingRate).service_level = "standard" ∧
    materialiseRate true ⟨"std-ship", "US", "standard", 500, "Standard"⟩ =
      { id := "std-ship", title := "Standard" ++ " (Free)",
        totals := [⟨"subtotal", 0⟩, ⟨"total", 0⟩] } ∧
    materialiseRate false ⟨"std-ship", "US", "standard", 500, "Standard"⟩ =
      { id := "std-ship", title := "Standard",
        totals := [⟨"subtotal", 500⟩, ⟨"total", 500⟩] } :=
  ⟨by decide,
   C8_free_shipping_evaluation.2.1 exCatalog exAddress [] 0 []
     ⟨"std-ship", "Standard", [⟨"subtotal", 500⟩, ⟨"total", 500⟩]⟩
     (by decide),
   rfl,
   (C8_free_shipping_evaluation.2.2 true
     ⟨"std-ship", "US", "standard", 500, "Standard"⟩).1 rfl rfl,
   (C8_free_shipping_evaluation.2.2 false
     ⟨"std-ship", "US", "standard", 500, "Standard"⟩).2 (Or.inl rfl)⟩

set_option maxRecDepth 4000 in
/-- C9: the code computes a percentage discount as
`int(grand_total * (value / 100))` in IEEE-754 binary64 arithmetic, not
with the claimed truncating integer arithmetic: at grand total 100 and
value 29 the float product is 28.999999999999996, so the code yields 28
where `⌊100 × 29 / 100⌋ = 29`, and the 29 percent scenario persists
totals `[subtotal 100, discount 28, total 72]`. -/
theorem C9_percentage_float_truncation :
    pyFloatPercent 100 29 = 28 ∧
    specPercentAmount 100 29 = 29 ∧
    discountAmountOf 100 ⟨"29OFF", "percentage", 29, "29 off"⟩ = 28 ∧
    (_recalculate_totals exDiscountCatalog exDiscountSession
        0).toOption.map (fun r => r.1.totals) =
      some [⟨"subtotal", 100⟩, ⟨"discount", 28⟩, ⟨"total", 72⟩] :=
  ⟨by decide, by decide, by decide, rfl⟩

end UCP
